import Mathlib

/-!
Shallow embedding of the mj-hd/gb Game Boy emulator (src/: cpu.rs, bus.rs,
ppu.rs, timer.rs, mbc.rs, joypad.rs) and proofs about its claimed behaviour.

Machine integers (u8/u16) are modelled as `Nat` with wrapping made explicit
(`% 256`, `% 65536`) exactly where Rust's `wrapping_add`/`wrapping_sub` or an
`as u8`/`as u16` cast truncates.  Byte/word arrays are modelled as total
functions `Nat → Nat`; `Vec` as `List`.  Rust `Result` is kept as `Except`
for the operations that can actually fail (`bail!` in r8/set_r8/r16/set_r16);
operations whose `Result` is `Ok` on every path (bus, ppu, timer, mbc in this
code base) are modelled as pure functions.  Debug-only I/O (println!,
eprintln!, the rustyline debugger REPL and the `stepping`/`breakpoints`/
`trace_left` fields it drives) has no effect on the emulated state and is
omitted; the returned mnemonic trace strings are likewise dropped, keeping
only the success/failure outcome and the state.
-/

namespace GB

/-! ## Machine arithmetic helpers -/

/-- `u8::wrapping_add`. -/
def wadd8 (a b : Nat) : Nat := (a + b) % 256

/-- `u8::wrapping_sub` (on in-range representatives). -/
def wsub8 (a b : Nat) : Nat := (a + 256 - b % 256) % 256

/-- `u16::wrapping_add`. -/
def wadd16 (a b : Nat) : Nat := (a + b) % 65536

/-- `u16::wrapping_sub` (on in-range representatives). -/
def wsub16 (a b : Nat) : Nat := (a + 65536 - b % 65536) % 65536

/-- Rust `byte as i8 as u16`: sign-extend a byte to 16 bits. -/
def signExt8to16 (n : Nat) : Nat :=
  if n % 256 < 128 then n % 256 else n % 256 + 0xFF00

/-- Rust `byte as i8 as i16` as an integer value. -/
def i8val (n : Nat) : Int :=
  if n % 256 < 128 then (n % 256 : Int) else (n % 256 : Int) - 256

/-! ## cpu.rs: the flags register `F` (a `bitfield!` over one byte:
bit 4 = c, bit 5 = h, bit 6 = n, bit 7 = z). -/

def F.c (f : Nat) : Bool := f.testBit 4

def F.h (f : Nat) : Bool := f.testBit 5

def F.n (f : Nat) : Bool := f.testBit 6

def F.z (f : Nat) : Bool := f.testBit 7

/-- bitfield setter: clear the bit, then or in the new value. -/
def F.set_c (b : Bool) (f : Nat) : Nat := f &&& 0xEF ||| (if b then 0x10 else 0)

def F.set_h (b : Bool) (f : Nat) : Nat := f &&& 0xDF ||| (if b then 0x20 else 0)

def F.set_n (b : Bool) (f : Nat) : Nat := f &&& 0xBF ||| (if b then 0x40 else 0)

def F.set_z (b : Bool) (f : Nat) : Nat := f &&& 0x7F ||| (if b then 0x80 else 0)

/-! ## rom.rs / mbc.rs -/

/-- The slice of `Rom` the memory-bank controllers use: its data bytes.
(Header parsing is out of scope of the emulation core.) -/
structure Rom where
  data : Nat → Nat

inductive Mbc1SelectMode where
  | ROM
  | RAM
deriving DecidableEq

/-- The two implemented `Mbc` trait objects as a closed sum. -/
inductive Mbc where
  | romOnly (rom : Rom) (ram : Nat → Nat)
  | mbc1 (rom : Rom) (ram : Nat → Nat) (rom_bank ram_bank : Nat)
      (enable_ram : Bool) (select_mode : Mbc1SelectMode)

/-- `RomOnly::new`. -/
def RomOnly.new (rom : Rom) : Mbc := .romOnly rom (fun _ => 0)

/-- `Mbc1::new`: note `enable_ram: true` and `rom_bank: 1`. -/
def Mbc1.new (rom : Rom) : Mbc := .mbc1 rom (fun _ => 0) 1 0 true .ROM

/-- `Mbc1::read_rom_from_bank`. -/
def Mbc.read_rom_from_bank (rom : Rom) (rom_bank addr : Nat) : Nat :=
  rom.data (rom_bank * 16 * 1024 + (addr - 0x4000))

/-- `Mbc1::read_ram_from_bank` (disabled RAM reads 0). -/
def Mbc.read_ram_from_bank (ram : Nat → Nat) (ram_bank : Nat) (enable_ram : Bool)
    (addr : Nat) : Nat :=
  if !enable_ram then 0
  else ram (ram_bank * 8 * 1024 + (addr - 0xA000))

/-- `Mbc::read` for both variants. -/
def Mbc.read (m : Mbc) (addr : Nat) : Nat :=
  match m with
  | .romOnly rom ram =>
      if addr ≥ 0xA000 then ram (addr - 0xA000) else rom.data addr
  | .mbc1 rom ram rom_bank ram_bank enable_ram _ =>
      if addr ≤ 0x3FFF then rom.data addr
      else if addr ≤ 0x7FFF then Mbc.read_rom_from_bank rom rom_bank addr
      else if 0xA000 ≤ addr ∧ addr ≤ 0xBFFF then
        Mbc.read_ram_from_bank ram ram_bank enable_ram addr
      else 0

/-- `Mbc1::write_ram_into_bank` (disabled RAM drops the write). -/
def Mbc.write_ram_into_bank (m : Mbc) (addr val : Nat) : Mbc :=
  match m with
  | .mbc1 rom ram rom_bank ram_bank enable_ram select_mode =>
      if !enable_ram then m
      else
        .mbc1 rom
          (fun n => if n = ram_bank * 8 * 1024 + (addr - 0xA000) then val else ram n)
          rom_bank ram_bank enable_ram select_mode
  | _ => m

/-- `Mbc::write` for both variants. -/
def Mbc.write (m : Mbc) (addr val : Nat) : Mbc :=
  match m with
  | .romOnly rom ram =>
      if addr ≥ 0xA000 then
        .romOnly rom (fun n => if n = addr - 0xA000 then val else ram n)
      else m
  | .mbc1 rom ram rom_bank ram_bank enable_ram select_mode =>
      if addr ≤ 0x1FFF then
        if val &&& 0x0F = 0x0A then
          .mbc1 rom ram rom_bank ram_bank true select_mode
        else
          .mbc1 rom ram rom_bank ram_bank false select_mode
      else if addr ≤ 0x3FFF then
        .mbc1 rom ram (max (val &&& 0b00011111) 1) ram_bank enable_ram select_mode
      else if addr ≤ 0x5FFF then
        match select_mode with
        | .ROM =>
            .mbc1 rom ram (rom_bank ||| (max (val &&& 0b00000011) 1 <<< 5))
              ram_bank enable_ram select_mode
        | .RAM =>
            .mbc1 rom ram rom_bank (val &&& 0b00000011) enable_ram select_mode
      else if addr ≤ 0x7FFF then
        .mbc1 rom ram rom_bank ram_bank enable_ram
          (if val = 0x01 then .RAM else .ROM)
      else m.write_ram_into_bank addr val

/-! ## timer.rs -/

inductive Clock where
  | Clock4096
  | Clock262144
  | Clock65536
  | Clock16384
deriving DecidableEq

structure Timer where
  counter : Nat
  tima : Nat
  tma : Nat
  enable : Bool
  clock : Clock
  prev : Bool
  int : Bool

/-- `Timer::default`. -/
def Timer.default : Timer :=
  { counter := 0, tima := 0, tma := 0, enable := false, clock := .Clock4096,
    prev := false, int := false }

/-- `Timer::sync`: falling-edge detector on the clock-selected counter bit;
on an edge TIMA increments, and the TMA reload plus interrupt fire only when
additionally `counter % 4 == 0`. -/
def Timer.sync (t : Timer) : Timer :=
  let cur : Bool :=
    if t.enable then
      let bit : Nat := match t.clock with
        | .Clock4096 => 1 <<< 9
        | .Clock262144 => 1 <<< 3
        | .Clock65536 => 1 <<< 5
        | .Clock16384 => 1 <<< 7
      decide (t.counter &&& bit > 0)
    else false
  let t1 :=
    if t.prev && !cur then
      let tima1 := wadd8 t.tima 1
      if t.counter % 4 = 0 && tima1 = 0 then
        { t with tima := t.tma, int := true }
      else
        { t with tima := tima1 }
    else t
  { t1 with prev := cur }

/-- `Timer::tick`. -/
def Timer.tick (t : Timer) : Timer :=
  Timer.sync { t with counter := wadd16 t.counter 1 }

def Timer.read_div (t : Timer) : Nat := (t.counter >>> 8) % 256

def Timer.write_div (t : Timer) : Timer := { t with counter := 0 }

def Timer.read_tima (t : Timer) : Nat := t.tima

def Timer.write_tima (t : Timer) (val : Nat) : Timer :=
  { t.sync with tima := val }

def Timer.read_tma (t : Timer) : Nat := t.tma

def Timer.write_tma (t : Timer) (val : Nat) : Timer :=
  Timer.sync { t with tma := val }

/-- `Timer::read_tac`: bitpack "00000ess". -/
def Timer.read_tac (t : Timer) : Nat :=
  let s : Nat := match t.clock with
    | .Clock4096 => 0 | .Clock262144 => 1 | .Clock65536 => 2 | .Clock16384 => 3
  (if t.enable then 4 else 0) ||| s

/-- `Timer::write_tac` ("?????ess"; an out-of-range clock code cannot occur
since the field is two bits). -/
def Timer.write_tac (t : Timer) (val : Nat) : Timer :=
  let e := (val >>> 2) &&& 1
  let s := val &&& 3
  let clock := match s with
    | 0 => Clock.Clock4096
    | 1 => Clock.Clock262144
    | 2 => Clock.Clock65536
    | _ => Clock.Clock16384
  { t with enable := e = 1, clock := clock }

/-! ## joypad.rs -/

structure Joypad where
  up : Bool
  down : Bool
  left : Bool
  right : Bool
  a : Bool
  b : Bool
  start : Bool
  select : Bool
  direction : Bool
  button : Bool
  int : Bool

def Joypad.default : Joypad :=
  { up := false, down := false, left := false, right := false, a := false,
    b := false, start := false, select := false, direction := false,
    button := false, int := false }

/-- bitpack "110dseba". -/
def Joypad.read_button (j : Joypad) : Nat :=
  0xC0 ||| (if !j.direction then 0x10 else 0) ||| (if !j.start then 8 else 0)
    ||| (if !j.select then 4 else 0) ||| (if !j.b then 2 else 0)
    ||| (if !j.a then 1 else 0)

/-- bitpack "11b0dulr". -/
def Joypad.read_direction (j : Joypad) : Nat :=
  0xC0 ||| (if !j.button then 0x20 else 0) ||| (if !j.down then 8 else 0)
    ||| (if !j.up then 4 else 0) ||| (if !j.left then 2 else 0)
    ||| (if !j.right then 1 else 0)

def Joypad.read (j : Joypad) : Nat :=
  if j.direction then j.read_direction
  else if j.button then j.read_button
  else 0xFF

/-- `Joypad::write` ("??bd????"). -/
def Joypad.write (j : Joypad) (val : Nat) : Joypad :=
  { j with direction := !val.testBit 4, button := !val.testBit 5 }

/-! ## ppu.rs -/

/-- LcdControl bit accessors (`bitfield!` over one byte). -/
def LcdControl.bg_win_enable (v : Nat) : Bool := v.testBit 0

def LcdControl.sprite_enable (v : Nat) : Bool := v.testBit 1

def LcdControl.sprite_size (v : Nat) : Bool := v.testBit 2

def LcdControl.bg_tile_map_select (v : Nat) : Bool := v.testBit 3

def LcdControl.tile_data_select (v : Nat) : Bool := v.testBit 4

def LcdControl.window_display_enable (v : Nat) : Bool := v.testBit 5

def LcdControl.window_tile_map_select (v : Nat) : Bool := v.testBit 6

def LcdControl.lcd_display_enable (v : Nat) : Bool := v.testBit 7

/-- SpriteFlags bit accessors. -/
def SpriteFlags.palette_num (v : Nat) : Bool := v.testBit 4

def SpriteFlags.x_flip (v : Nat) : Bool := v.testBit 5

def SpriteFlags.y_flip (v : Nat) : Bool := v.testBit 6

def SpriteFlags.priority (v : Nat) : Bool := v.testBit 7

/-- `Palette([u8; 4])`, built from a byte "ddccbbaa". -/
structure Palette where
  a : Nat
  b : Nat
  c : Nat
  d : Nat

def Palette.fromByte (val : Nat) : Palette :=
  { a := val &&& 3, b := (val >>> 2) &&& 3, c := (val >>> 4) &&& 3,
    d := (val >>> 6) &&& 3 }

def Palette.toByte (p : Palette) : Nat :=
  (p.d &&& 3) <<< 6 ||| (p.c &&& 3) <<< 4 ||| (p.b &&& 3) <<< 2 ||| (p.a &&& 3)

/-- `palette.0[index]` for a color index 0–3 (never out of range). -/
def Palette.get (p : Palette) (i : Nat) : Nat :=
  match i with
  | 0 => p.a
  | 1 => p.b
  | 2 => p.c
  | _ => p.d

/-- One OAM (sprite attribute) entry. -/
structure Oam where
  y_pos : Nat
  x_pos : Nat
  tile_num : Nat
  sprite_flag : Nat

def Oam.default : Oam := { y_pos := 0, x_pos := 0, tile_num := 0, sprite_flag := 0 }

inductive Mode where
  | HBlank
  | VBlank
  | OamScan
  | Drawing
deriving DecidableEq

structure OamColor where
  index : Nat
  color : Nat
  blend : Bool

def OamColor.default : OamColor := { index := 0, color := 0, blend := false }

/-- `OamColor::from_indexes`. -/
def OamColor.from_indexes (indexes : Nat → Nat) (blend : Bool) (palette : Palette) :
    Nat → OamColor :=
  fun j => { index := indexes j, blend := blend, color := palette.get (indexes j) }

structure Rgba where
  r : Nat
  g : Nat
  b : Nat
  a : Nat

structure Ppu where
  vram : Nat → Nat
  mode : Mode
  lcd_control : Nat
  lcd_status : Nat
  window_x : Nat
  window_y : Nat
  scroll_x : Nat
  scroll_y : Nat
  cycles : Nat
  lines : Nat
  lines_compare : Nat
  bg_palette : Palette
  object_palette_0 : Palette
  object_palette_1 : Palette
  int_v_blank : Bool
  int_lcd_stat : Bool
  x : Nat
  y : Nat
  oam : Nat → Oam
  buffer : List Oam
  bg_line : Nat → Nat
  oam_line : Nat → OamColor
  cur_bg : Nat → Nat
  drawing_window : Bool
  pixels : Nat → Nat → Rgba

/-- `Ppu::new`. -/
def Ppu.new : Ppu :=
  { vram := fun _ => 0, mode := .VBlank, lcd_control := 0, lcd_status := 0,
    window_x := 0, window_y := 0, scroll_x := 0, scroll_y := 0, cycles := 0,
    lines := 0, lines_compare := 0, bg_palette := Palette.fromByte 0,
    object_palette_0 := Palette.fromByte 0, object_palette_1 := Palette.fromByte 0,
    int_v_blank := false, int_lcd_stat := false, x := 0, y := 0,
    oam := fun _ => Oam.default, buffer := [], bg_line := fun _ => 0,
    oam_line := fun _ => OamColor.default, cur_bg := fun _ => 0,
    drawing_window := false,
    pixels := fun _ _ => { r := 0, g := 0, b := 0, a := 0 } }

def Ppu.color_to_pixel (color : Nat) : Rgba :=
  match color with
  | 0 => { r := 0xD8, g := 0xF7, b := 0xD7, a := 0xFF }
  | 1 => { r := 0x6C, g := 0xA6, b := 0x6B, a := 0xFF }
  | 2 => { r := 0x20, g := 0x59, b := 0x4A, a := 0xFF }
  | 3 => { r := 0x00, g := 0x14, b := 0x1B, a := 0xFF }
  | _ => { r := 0xFF, g := 0xFF, b := 0xFF, a := 0xFF }

/-- `Ppu::tile_to_indexes`: decode one 8-pixel tile row into 2-bit color
indexes.  The two tile bitplane bytes are combined so that index `j` takes its
high bit from `bit` (bit `7-j`) and its low bit from `color` (bit `7-j`). -/
def Ppu.tile_to_indexes (p : Ppu) (tile_num row : Nat) (signed : Bool) : Nat → Nat :=
  let base_addr : Nat := if signed then 0x9000 - 0x8000 else 0x0000
  let index_addr : Nat :=
    if signed then (((row : Int) * 2 + i8val tile_num * 16).emod 65536).toNat
    else row * 2 + tile_num * 16
  let addr := wadd16 base_addr index_addr
  let bit := p.vram addr
  let color := p.vram (addr + 1)
  fun j =>
    if j < 8 then 2 * ((bit >>> (7 - j)) &&& 1) + ((color >>> (7 - j)) &&& 1)
    else 0

/-- `Ppu::tile_map_to_colors`. -/
def Ppu.tile_map_to_colors (p : Ppu) (tile_x tile_y row : Nat) (high : Bool) :
    Nat → Nat :=
  let base_addr : Nat := if high then 0x9C00 - 0x8000 else 0x9800 - 0x8000
  let index_addr := tile_x + tile_y * 32
  let addr := wadd16 base_addr index_addr
  let tile_num := p.vram addr
  p.tile_to_indexes tile_num row (!LcdControl.tile_data_select p.lcd_control)

/-- `Ppu::oam_to_colors` (u8 arithmetic wraps). -/
def Ppu.oam_to_colors (p : Ppu) (oam : Oam) : Nat → OamColor :=
  let row0 := wsub8 (p.y + 16) oam.y_pos
  let tile0 := oam.tile_num
  let rt : Nat × Nat :=
    if LcdControl.sprite_size p.lcd_control ∧ row0 ≥ 8 then
      (row0 - 8, tile0 ||| 0b0000001)
    else (row0, tile0 &&& 0b1111110)
  let row1 := if SpriteFlags.y_flip oam.sprite_flag then wsub8 7 rt.1 else rt.1
  let palette :=
    if SpriteFlags.palette_num oam.sprite_flag then p.object_palette_1
    else p.object_palette_0
  let blend := SpriteFlags.priority oam.sprite_flag
  let colors := OamColor.from_indexes (p.tile_to_indexes rt.2 row1 false) blend palette
  if SpriteFlags.x_flip oam.sprite_flag then fun j => colors (7 - j) else colors

/-- `Ppu::scan_oam`: candidate test for sprite `i` on the current line; the
per-line buffer is capped at 10 entries. -/
def Ppu.scan_oam (p : Ppu) (i : Nat) : Ppu :=
  let size : Nat := if LcdControl.sprite_size p.lcd_control then 16 else 8
  let oam := p.oam i
  let cur_y := p.lines + 16
  let target_y := oam.y_pos
  if oam.x_pos > 8 ∧ cur_y < target_y + size ∧ target_y ≤ cur_y ∧
      p.buffer.length < 10 then
    { p with buffer := p.buffer ++ [oam] }
  else p

/-- `Ppu::draw_bg`. -/
def Ppu.draw_bg (p : Ppu) : Ppu :=
  if p.drawing_window then p
  else
    let cx := wadd8 p.x p.scroll_x
    let cy := wadd8 p.y p.scroll_y
    let col := cx % 8
    let row := cy % 8
    let tile_x := cx / 8
    let tile_y := cy / 8
    let cur_bg1 :=
      if col = 0 ∨ p.x = 0 then
        p.tile_map_to_colors tile_x tile_y row (LcdControl.bg_tile_map_select p.lcd_control)
      else p.cur_bg
    { p with
      cur_bg := cur_bg1
      bg_line := fun n => if n = p.x then cur_bg1 col else p.bg_line n }

/-- `Ppu::draw_window`. -/
def Ppu.draw_window (p : Ppu) : Ppu :=
  if !p.drawing_window ∧ ¬(p.x + 7 = p.window_x ∧ p.y ≥ p.window_y) then p
  else
    let cx := wsub8 p.x p.window_x
    let cy := wsub8 p.y p.window_y
    let col := cx % 8
    let row := cy % 8
    let tile_x := cx / 8
    let tile_y := cy / 8
    let cur_bg1 :=
      if col = 0 ∨ p.x = 0 then
        p.tile_map_to_colors tile_x tile_y row
          (LcdControl.window_tile_map_select p.lcd_control)
      else p.cur_bg
    { p with
      drawing_window := true
      cur_bg := cur_bg1
      bg_line := fun n => if n = p.x then cur_bg1 col else p.bg_line n }

/-- `Ppu::draw_sprite`: every buffered sprite whose x aligns with the current
column overwrites `oam_line[x..x+8]`. -/
def Ppu.draw_sprite (p : Ppu) : Ppu :=
  { p with
    oam_line := p.buffer.foldl
      (fun line oam =>
        if oam.x_pos = p.x + 8 then
          fun n => if p.x ≤ n ∧ n < p.x + 8 then p.oam_to_colors oam (n - p.x) else line n
        else line)
      p.oam_line }

/-- `Ppu::put_pixels`: compose background and sprite color for column `x`. -/
def Ppu.put_pixels (p : Ppu) (x : Nat) : Ppu :=
  let index := p.bg_line x
  let color0 := p.bg_palette.get index
  let oam := p.oam_line x
  let color := if (!oam.blend ∨ index = 0) ∧ oam.index ≠ 0 then oam.color else color0
  { p with pixels := fun i j =>
      if i = x ∧ j = p.y then Ppu.color_to_pixel color else p.pixels i j }

/-- The per-mode rendering work at the end of `Ppu::tick` (the final `match
self.mode` of the source, factored out verbatim). -/
def Ppu.tick_render (p : Ppu) : Ppu :=
  match p.mode with
  | .Drawing =>
      let pa :=
        if LcdControl.bg_win_enable p.lcd_control then
          let pw :=
            if LcdControl.window_display_enable p.lcd_control then p.draw_window
            else p
          pw.draw_bg
        else p
      if LcdControl.sprite_enable pa.lcd_control then pa.draw_sprite else pa
  | .HBlank =>
      if p.cycles < 400 then p.put_pixels (wsub16 p.cycles 240 % 256) else p
  | .OamScan =>
      if p.cycles % 2 = 0 then p.scan_oam (p.cycles / 2) else p
  | _ => p

/-- `Ppu::tick`: advance one dot. -/
def Ppu.tick_inc (p : Ppu) : Ppu :=
  let cycles := p.cycles + 1
  if cycles ≥ 456 then
    { p with
      cycles := 0
      lines := p.lines + 1
      buffer := []
      bg_line := fun _ => 0
      oam_line := fun _ => OamColor.default }
  else { p with cycles := cycles }

def Ppu.tick_wrap_lines (p : Ppu) : Ppu :=
  if p.lines ≥ 154 then { p with lines := 0 } else p

def Ppu.tick_reset_x (p : Ppu) : Ppu :=
  if p.cycles = 80 then { p with x := 0 } else p

def Ppu.tick_reset_y (p : Ppu) : Ppu :=
  if p.lines = 0 then { p with y := 0 } else p

def Ppu.tick_visible (p : Ppu) : Ppu :=
  if p.lines < 144 then
    let pa := { p with y := p.lines }
    if pa.cycles ≤ 79 then { pa with mode := .OamScan }
    else if pa.cycles = 80 then { pa with mode := .Drawing }
    else if pa.cycles ≤ 239 then { pa with x := pa.x + 1 }
    else if pa.cycles ≤ 455 then { pa with mode := .HBlank, drawing_window := false }
    else pa
  else p

def Ppu.tick_enter_vblank (p : Ppu) : Ppu :=
  if p.lines = 144 then { p with mode := .VBlank, int_v_blank := true } else p

def Ppu.tick (p : Ppu) : Ppu :=
  Ppu.tick_render
    (Ppu.tick_enter_vblank
      (Ppu.tick_visible
        (Ppu.tick_reset_y (Ppu.tick_reset_x (Ppu.tick_wrap_lines (Ppu.tick_inc p))))))

def Ppu.read (p : Ppu) (addr : Nat) : Nat := p.vram (addr - 0x8000)

def Ppu.write (p : Ppu) (addr val : Nat) : Ppu :=
  { p with vram := fun n => if n = addr - 0x8000 then val else p.vram n }

def Ppu.read_oam (p : Ppu) (addr : Nat) : Nat :=
  let index_addr := addr - 0xFE00
  let index := index_addr / 4
  let offset := index_addr % 4
  let oam := p.oam index
  match offset with
  | 0 => oam.y_pos
  | 1 => oam.x_pos
  | 2 => oam.tile_num
  | _ => oam.sprite_flag

def Ppu.write_oam (p : Ppu) (addr val : Nat) : Ppu :=
  let index_addr := addr - 0xFE00
  let index := index_addr / 4
  let offset := index_addr % 4
  { p with oam := fun n =>
      if n = index then
        let oam := p.oam index
        match offset with
        | 0 => { oam with y_pos := val }
        | 1 => { oam with x_pos := val }
        | 2 => { oam with tile_num := val }
        | _ => { oam with sprite_flag := val }
      else p.oam n }

def Ppu.read_lcd_control (p : Ppu) : Nat := p.lcd_control

def Ppu.write_lcd_control (p : Ppu) (val : Nat) : Ppu := { p with lcd_control := val }

def Ppu.read_lcd_status (p : Ppu) : Nat := p.lcd_status

def Ppu.write_lcd_status (p : Ppu) (val : Nat) : Ppu := { p with lcd_status := val }

def Ppu.read_scroll_y (p : Ppu) : Nat := p.scroll_y

def Ppu.write_scroll_y (p : Ppu) (val : Nat) : Ppu := { p with scroll_y := val }

def Ppu.read_scroll_x (p : Ppu) : Nat := p.scroll_x

def Ppu.write_scroll_x (p : Ppu) (val : Nat) : Ppu := { p with scroll_x := val }

def Ppu.read_lines (p : Ppu) : Nat := p.lines

def Ppu.read_line_compare (p : Ppu) : Nat := p.lines_compare

def Ppu.write_line_compare (p : Ppu) (val : Nat) : Ppu := { p with lines_compare := val }

def Ppu.read_window_x (p : Ppu) : Nat := p.window_x

def Ppu.write_window_x (p : Ppu) (val : Nat) : Ppu := { p with window_x := val }

def Ppu.read_window_y (p : Ppu) : Nat := p.window_y

def Ppu.write_window_y (p : Ppu) (val : Nat) : Ppu := { p with window_y := val }

def Ppu.read_bg_palette (p : Ppu) : Nat := p.bg_palette.toByte

def Ppu.write_bg_palette (p : Ppu) (val : Nat) : Ppu :=
  { p with bg_palette := Palette.fromByte val }

def Ppu.read_object_palette_0 (p : Ppu) : Nat := p.object_palette_0.toByte

def Ppu.write_object_palette_0 (p : Ppu) (val : Nat) : Ppu :=
  { p with object_palette_0 := Palette.fromByte val }

def Ppu.read_object_palette_1 (p : Ppu) : Nat := p.object_palette_1.toByte

def Ppu.write_object_palette_1 (p : Ppu) (val : Nat) : Ppu :=
  { p with object_palette_1 := Palette.fromByte val }

/-! ## bus.rs -/

/-- `Ie` bit accessors (interrupt-enable register byte). -/
def Ie.v_blank (v : Nat) : Bool := v.testBit 0

def Ie.lcd_stat (v : Nat) : Bool := v.testBit 1

def Ie.timer (v : Nat) : Bool := v.testBit 2

def Ie.serial (v : Nat) : Bool := v.testBit 3

def Ie.joypad (v : Nat) : Bool := v.testBit 4

structure Bus where
  ppu : Ppu
  joypad : Joypad
  timer : Timer
  ram : Nat → Nat
  hram : Nat → Nat
  mbc : Mbc
  ie : Nat
  prev_serial : Bool
  int_serial : Bool

/-- `Bus::new`. -/
def Bus.new (ppu : Ppu) (mbc : Mbc) : Bus :=
  { ppu := ppu, joypad := Joypad.default, timer := Timer.default,
    ram := fun _ => 0, hram := fun _ => 0, mbc := mbc, ie := 0,
    prev_serial := false, int_serial := false }

/-- `Bus::tick`: two PPU dots and four timer counter increments per call. -/
def Bus.tick (b : Bus) : Bus :=
  { b with
    ppu := b.ppu.tick.tick
    timer := b.timer.tick.tick.tick.tick }

def Bus.irq_v_blank (b : Bus) : Bool := b.ppu.int_v_blank

def Bus.set_irq_v_blank (b : Bus) (val : Bool) : Bus :=
  { b with ppu := { b.ppu with int_v_blank := val } }

def Bus.irq_lcd_stat (b : Bus) : Bool := b.ppu.int_lcd_stat

def Bus.set_irq_lcd_stat (b : Bus) (val : Bool) : Bus :=
  { b with ppu := { b.ppu with int_lcd_stat := val } }

def Bus.irq_timer (b : Bus) : Bool := b.timer.int

def Bus.set_irq_timer (b : Bus) (val : Bool) : Bus :=
  { b with timer := { b.timer with int := val } }

def Bus.irq_serial (b : Bus) : Bool := b.int_serial

def Bus.set_irq_serial (b : Bus) (val : Bool) : Bus := { b with int_serial := val }

def Bus.irq_joypad (b : Bus) : Bool := b.joypad.int

def Bus.set_irq_joypad (b : Bus) (val : Bool) : Bus :=
  { b with joypad := { b.joypad with int := val } }

/-- `Bus::read_irq`: bitpack "000jstlv". -/
def Bus.read_irq (b : Bus) : Nat :=
  (if b.joypad.int then 0x10 else 0) ||| (if b.int_serial then 8 else 0)
    ||| (if b.timer.int then 4 else 0) ||| (if b.ppu.int_lcd_stat then 2 else 0)
    ||| (if b.ppu.int_v_blank then 1 else 0)

/-- `Bus::write_irq` ("???jstlv"). -/
def Bus.write_irq (b : Bus) (val : Nat) : Bus :=
  { b with
    ppu := { b.ppu with int_v_blank := val.testBit 0, int_lcd_stat := val.testBit 1 }
    timer := { b.timer with int := val.testBit 2 }
    int_serial := val.testBit 3
    joypad := { b.joypad with int := val.testBit 4 } }

/-- `Bus::read` (serial reads are stubbed to 0 in the source). -/
def Bus.read (b : Bus) (addr : Nat) : Nat :=
  if addr ≤ 0x7FFF then b.mbc.read addr
  else if addr ≤ 0x9FFF then b.ppu.read addr
  else if addr ≤ 0xBFFF then b.mbc.read addr
  else if addr ≤ 0xDFFF then b.ram (addr - 0xC000)
  else if addr ≤ 0xFDFF then b.ram (addr - 0xE000)
  else if addr ≤ 0xFE9F then b.ppu.read_oam addr
  else if addr ≤ 0xFEFF then 0
  else if addr = 0xFF00 then b.joypad.read
  else if addr = 0xFF01 then 0
  else if addr = 0xFF02 then 0
  else if addr = 0xFF04 then b.timer.read_div
  else if addr = 0xFF05 then b.timer.read_tima
  else if addr = 0xFF06 then b.timer.read_tma
  else if addr = 0xFF07 then b.timer.read_tac
  else if addr = 0xFF0F then b.read_irq
  else if addr = 0xFF40 then b.ppu.read_lcd_control
  else if addr = 0xFF41 then b.ppu.read_lcd_status
  else if addr = 0xFF42 then b.ppu.read_scroll_y
  else if addr = 0xFF43 then b.ppu.read_scroll_x
  else if addr = 0xFF44 then b.ppu.read_lines
  else if addr = 0xFF45 then b.ppu.read_line_compare
  else if addr = 0xFF47 then b.ppu.read_bg_palette
  else if addr = 0xFF48 then b.ppu.read_object_palette_0
  else if addr = 0xFF49 then b.ppu.read_object_palette_1
  else if addr = 0xFF4A then b.ppu.read_window_y
  else if addr = 0xFF4B then b.ppu.read_window_x
  else if 0xFF80 ≤ addr ∧ addr ≤ 0xFFFE then b.hram (addr - 0xFF80)
  else if addr = 0xFFFF then b.ie
  else 0

/-- `Bus::read_word`: little-endian, two byte reads. -/
def Bus.read_word (b : Bus) (addr : Nat) : Nat :=
  let low := b.read addr
  let high := b.read (addr + 1)
  (high <<< 8) ||| low

/-- `Bus::write_serial_ctrl` ("s??????i"): a start-transfer falling edge
raises the serial interrupt (the eprintln! diagnostics are dropped). -/
def Bus.write_serial_ctrl (b : Bus) (val : Nat) : Bus :=
  let cur := val.testBit 7
  let b1 := if b.prev_serial && !cur then { b with int_serial := true } else b
  { b1 with prev_serial := cur }

/-- `Bus::write` (serial data writes only log in the source). -/
def Bus.write (b : Bus) (addr val : Nat) : Bus :=
  if addr ≤ 0x7FFF then { b with mbc := b.mbc.write addr val }
  else if addr ≤ 0x9FFF then { b with ppu := b.ppu.write addr val }
  else if addr ≤ 0xBFFF then { b with mbc := b.mbc.write addr val }
  else if addr ≤ 0xDFFF then
    { b with ram := fun n => if n = addr - 0xC000 then val else b.ram n }
  else if addr ≤ 0xFDFF then
    { b with ram := fun n => if n = addr - 0xE000 then val else b.ram n }
  else if addr ≤ 0xFE9F then { b with ppu := b.ppu.write_oam addr val }
  else if addr ≤ 0xFEFF then b
  else if addr = 0xFF00 then { b with joypad := b.joypad.write val }
  else if addr = 0xFF01 then b
  else if addr = 0xFF02 then b.write_serial_ctrl val
  else if addr = 0xFF04 then { b with timer := b.timer.write_div }
  else if addr = 0xFF05 then { b with timer := b.timer.write_tima val }
  else if addr = 0xFF06 then { b with timer := b.timer.write_tma val }
  else if addr = 0xFF07 then { b with timer := b.timer.write_tac val }
  else if addr = 0xFF0F then b.write_irq val
  else if addr = 0xFF40 then { b with ppu := b.ppu.write_lcd_control val }
  else if addr = 0xFF41 then { b with ppu := b.ppu.write_lcd_status val }
  else if addr = 0xFF42 then { b with ppu := b.ppu.write_scroll_y val }
  else if addr = 0xFF43 then { b with ppu := b.ppu.write_scroll_x val }
  else if addr = 0xFF45 then { b with ppu := b.ppu.write_line_compare val }
  else if addr = 0xFF47 then { b with ppu := b.ppu.write_bg_palette val }
  else if addr = 0xFF48 then { b with ppu := b.ppu.write_object_palette_0 val }
  else if addr = 0xFF49 then { b with ppu := b.ppu.write_object_palette_1 val }
  else if addr = 0xFF4A then { b with ppu := b.ppu.write_window_y val }
  else if addr = 0xFF4B then { b with ppu := b.ppu.write_window_x val }
  else if 0xFF80 ≤ addr ∧ addr ≤ 0xFFFE then
    { b with hram := fun n => if n = addr - 0xFF80 then val else b.hram n }
  else if addr = 0xFFFF then { b with ie := val }
  else b

/-- `Bus::write_word`: little-endian, two byte writes. -/
def Bus.write_word (b : Bus) (addr val : Nat) : Bus :=
  let low := val &&& 0x00FF
  let high := val >>> 8
  (b.write addr low).write (addr + 1) high

/-! ## cpu.rs -/

/-- The two `bail!` sites in cpu.rs: an out-of-range register-index decode. -/
inductive EmuErr where
  | unknownR8 (index : Nat)
  | unknownR16 (index : Nat)
deriving DecidableEq

/-- CPU state.  The debugger-only fields (`stepping`, `breakpoints`, `rl`,
`trace_left`) drive console I/O only and are omitted. -/
structure Cpu where
  a : Nat
  f : Nat
  bc : Nat
  de : Nat
  hl : Nat
  sp : Nat
  pc : Nat
  stalls : Nat
  ime : Bool
  halt : Bool
  bus : Bus

/-- `Cpu::new`. -/
def Cpu.new (bus : Bus) : Cpu :=
  { a := 0, f := 0, bc := 0, de := 0, hl := 0, sp := 0, pc := 0, stalls := 0,
    ime := false, halt := false, bus := bus }

def Cpu.b (s : Cpu) : Nat := (s.bc &&& 0xFF00) >>> 8

def Cpu.c (s : Cpu) : Nat := s.bc &&& 0x00FF

def Cpu.d (s : Cpu) : Nat := (s.de &&& 0xFF00) >>> 8

def Cpu.e (s : Cpu) : Nat := s.de &&& 0x00FF

def Cpu.h (s : Cpu) : Nat := (s.hl &&& 0xFF00) >>> 8

def Cpu.l (s : Cpu) : Nat := s.hl &&& 0x00FF

def Cpu.af (s : Cpu) : Nat := (s.a <<< 8) ||| s.f

def Cpu.set_b (s : Cpu) (val : Nat) : Cpu := { s with bc := s.bc &&& 0x00FF ||| (val <<< 8) }

def Cpu.set_c (s : Cpu) (val : Nat) : Cpu := { s with bc := s.bc &&& 0xFF00 ||| val }

def Cpu.set_d (s : Cpu) (val : Nat) : Cpu := { s with de := s.de &&& 0x00FF ||| (val <<< 8) }

def Cpu.set_e (s : Cpu) (val : Nat) : Cpu := { s with de := s.de &&& 0xFF00 ||| val }

def Cpu.set_h (s : Cpu) (val : Nat) : Cpu := { s with hl := s.hl &&& 0x00FF ||| (val <<< 8) }

def Cpu.set_l (s : Cpu) (val : Nat) : Cpu := { s with hl := s.hl &&& 0xFF00 ||| val }

def Cpu.set_af (s : Cpu) (val : Nat) : Cpu := { s with a := val >>> 8, f := val &&& 0x00FF }

/-- `Cpu::r8`: operand slot 0–7 = B,C,D,E,H,L,(HL),A. -/
def Cpu.r8 (s : Cpu) (index : Nat) : Except EmuErr Nat :=
  match index with
  | 0 => .ok s.b
  | 1 => .ok s.c
  | 2 => .ok s.d
  | 3 => .ok s.e
  | 4 => .ok s.h
  | 5 => .ok s.l
  | 6 => .ok (s.bus.read s.hl)
  | 7 => .ok s.a
  | _ => .error (.unknownR8 index)

def Cpu.set_r8 (s : Cpu) (index val : Nat) : Except EmuErr Cpu :=
  match index with
  | 0 => .ok (s.set_b val)
  | 1 => .ok (s.set_c val)
  | 2 => .ok (s.set_d val)
  | 3 => .ok (s.set_e val)
  | 4 => .ok (s.set_h val)
  | 5 => .ok (s.set_l val)
  | 6 => .ok { s with bus := s.bus.write s.hl val }
  | 7 => .ok { s with a := val }
  | _ => .error (.unknownR8 index)

/-- `Cpu::r16`: pair slot 0–3 = BC,DE,HL and (AF when `high` else SP). -/
def Cpu.r16 (s : Cpu) (index : Nat) (high : Bool) : Except EmuErr Nat :=
  match index with
  | 0 => .ok s.bc
  | 1 => .ok s.de
  | 2 => .ok s.hl
  | 3 => if high then .ok s.af else .ok s.sp
  | _ => .error (.unknownR16 index)

def Cpu.set_r16 (s : Cpu) (index val : Nat) (high : Bool) : Except EmuErr Cpu :=
  match index with
  | 0 => .ok { s with bc := val }
  | 1 => .ok { s with de := val }
  | 2 => .ok { s with hl := val }
  | 3 => if high then .ok (s.set_af val) else .ok { s with sp := val }
  | _ => .error (.unknownR16 index)

/-- `u8::overflowing_add` carry. -/
def Cpu.carry_positive (left right : Nat) : Bool := decide (left + right > 255)

/-- `u8::overflowing_sub` borrow. -/
def Cpu.carry_negative (left right : Nat) : Bool := decide (left < right)

def Cpu.half_carry_positive (left right : Nat) : Bool :=
  decide ((left &&& 0x0F) + (right &&& 0x0F) > 0x0F)

def Cpu.half_carry_negative (left right : Nat) : Bool :=
  decide ((left &&& 0x0F) < (right &&& 0x0F))

/-- `u16::overflowing_add` carry. -/
def Cpu.carry_positive_16 (left right : Nat) : Bool := decide (left + right > 65535)

def Cpu.half_carry_positive_16 (left right : Nat) : Bool :=
  decide ((left &&& 0x0FFF) + (right &&& 0x0FFF) > 0x0FFF)

/-- `Cpu::call`: push PC and jump. -/
def Cpu.call (s : Cpu) (addr : Nat) : Cpu :=
  let sp1 := wsub16 s.sp 2
  { s with sp := sp1, bus := s.bus.write_word sp1 s.pc, pc := addr }

/-- `Cpu::interrupt`: only vblank (vector 0x0040) and lcd-stat (0x0048) are
implemented; the timer/serial/joypad arms are commented out in the source. -/
def Cpu.interrupt (s : Cpu) : Option Cpu :=
  if Ie.v_blank s.bus.ie && s.bus.irq_v_blank then
    some (Cpu.call { s with bus := s.bus.set_irq_v_blank false } 0x0040)
  else if Ie.lcd_stat s.bus.ie && s.bus.irq_lcd_stat then
    some (Cpu.call { s with bus := s.bus.set_irq_lcd_stat false } 0x0048)
  else none

def Cpu.nop (s : Cpu) : Except EmuErr Cpu := .ok s

/-- The HALT instruction (`Cpu::halt`; named apart from the `halt` field). -/
def Cpu.halt_instr (s : Cpu) : Except EmuErr Cpu := .ok { s with halt := true }

def Cpu.stop (s : Cpu) : Except EmuErr Cpu := .ok s

def Cpu.di (s : Cpu) : Except EmuErr Cpu := .ok { s with ime := false }

def Cpu.ei (s : Cpu) : Except EmuErr Cpu := .ok { s with ime := true }

def Cpu.load_8_r_im8 (s : Cpu) (index : Nat) : Except EmuErr Cpu := do
  let val := s.bus.read s.pc
  let s := { s with pc := wadd16 s.pc 1 }
  s.set_r8 index val

def Cpu.load_8_r_r (s : Cpu) (left right : Nat) : Except EmuErr Cpu := do
  let val ← s.r8 right
  s.set_r8 left val

def Cpu.load_8_a_addr_bc (s : Cpu) : Except EmuErr Cpu :=
  .ok { s with a := s.bus.read s.bc }

def Cpu.load_8_a_addr_de (s : Cpu) : Except EmuErr Cpu :=
  .ok { s with a := s.bus.read s.de }

def Cpu.load_8_addr_bc_a (s : Cpu) : Except EmuErr Cpu :=
  .ok { s with bus := s.bus.write s.bc s.a }

def Cpu.load_8_addr_de_a (s : Cpu) : Except EmuErr Cpu :=
  .ok { s with bus := s.bus.write s.de s.a }

def Cpu.load_8_a_addr_im16 (s : Cpu) : Except EmuErr Cpu :=
  let addr := s.bus.read_word s.pc
  let s := { s with pc := wadd16 s.pc 2 }
  .ok { s with a := s.bus.read addr }

def Cpu.load_8_addr_im16_a (s : Cpu) : Except EmuErr Cpu :=
  let addr := s.bus.read_word s.pc
  let s := { s with pc := wadd16 s.pc 2 }
  .ok { s with bus := s.bus.write addr s.a }

def Cpu.load_8_a_addr_index_c (s : Cpu) : Except EmuErr Cpu :=
  let addr := 0xFF00 + s.c
  .ok { s with a := s.bus.read addr }

def Cpu.load_8_addr_index_c_a (s : Cpu) : Except EmuErr Cpu :=
  let addr := 0xFF00 + s.c
  .ok { s with bus := s.bus.write addr s.a }

def Cpu.load_8_a_addr_index_im8 (s : Cpu) : Except EmuErr Cpu :=
  let index := s.bus.read s.pc
  let s := { s with pc := wadd16 s.pc 1 }
  let addr := 0xFF00 + index
  .ok { s with a := s.bus.read addr }

def Cpu.load_8_addr_index_im8_a (s : Cpu) : Except EmuErr Cpu :=
  let index := s.bus.read s.pc
  let s := { s with pc := wadd16 s.pc 1 }
  let addr := 0xFF00 + index
  .ok { s with bus := s.bus.write addr s.a }

def Cpu.load_dec_8_a_addr_hl (s : Cpu) : Except EmuErr Cpu :=
  let val := s.bus.read s.hl
  .ok { s with hl := wsub16 s.hl 1, a := val }

def Cpu.load_dec_8_addr_hl_a (s : Cpu) : Except EmuErr Cpu :=
  .ok { s with bus := s.bus.write s.hl s.a, hl := wsub16 s.hl 1 }

def Cpu.load_inc_8_a_addr_hl (s : Cpu) : Except EmuErr Cpu :=
  let val := s.bus.read s.hl
  .ok { s with hl := wadd16 s.hl 1, a := val }

def Cpu.load_inc_8_addr_hl_a (s : Cpu) : Except EmuErr Cpu :=
  .ok { s with bus := s.bus.write s.hl s.a, hl := wadd16 s.hl 1 }

def Cpu.load_16_rr_im16 (s : Cpu) (index : Nat) : Except EmuErr Cpu := do
  let val := s.bus.read_word s.pc
  let s := { s with pc := wadd16 s.pc 2 }
  s.set_r16 index val false

/-- `Cpu::load_16_addr_im16_sp` (the source loads SP from memory here). -/
def Cpu.load_16_addr_im16_sp (s : Cpu) : Except EmuErr Cpu :=
  let addr := s.bus.read_word s.pc
  let s := { s with pc := wadd16 s.pc 2 }
  .ok { s with sp := s.bus.read_word addr }

/-- `Cpu::load_16_hl_index_im8_sp` (LD HL,SP+n): note the source feeds
`carry_positive_16` into `set_h` and `half_carry_positive_16` into `set_c`. -/
def Cpu.load_16_hl_index_im8_sp (s : Cpu) : Except EmuErr Cpu :=
  let base_addr := s.sp
  let index_addr := signExt8to16 (s.bus.read s.pc)
  let s := { s with pc := wadd16 s.pc 1 }
  let s := { s with hl := wadd16 base_addr index_addr }
  let f1 := F.set_z false s.f
  let f2 := F.set_n false f1
  let f3 := F.set_h (Cpu.carry_positive_16 base_addr index_addr) f2
  let f4 := F.set_c (Cpu.half_carry_positive_16 base_addr index_addr) f3
  .ok { s with f := f4 }

def Cpu.load_16_sp_hl (s : Cpu) : Except EmuErr Cpu := .ok { s with sp := s.hl }

def Cpu.push_16_rr (s : Cpu) (index : Nat) : Except EmuErr Cpu := do
  let val ← s.r16 index true
  let sp1 := wsub16 s.sp 2
  .ok { s with sp := sp1, bus := s.bus.write_word sp1 val }

def Cpu.pop_16_rr (s : Cpu) (index : Nat) : Except EmuErr Cpu := do
  let val := s.bus.read_word s.sp
  let s := { s with sp := wadd16 s.sp 2 }
  s.set_r16 index val true

def Cpu.add_8_a_r (s : Cpu) (index : Nat) : Except EmuErr Cpu := do
  let left := s.a
  let right ← s.r8 index
  let result := wadd8 left right
  let f1 := F.set_z (result = 0) s.f
  let f2 := F.set_n false f1
  let f3 := F.set_h (Cpu.half_carry_positive left right) f2
  let f4 := F.set_c (Cpu.carry_positive left right) f3
  .ok { s with a := result, f := f4 }

def Cpu.add_8_a_im8 (s : Cpu) : Except EmuErr Cpu :=
  let right := s.bus.read s.pc
  let s := { s with pc := wadd16 s.pc 1 }
  let left := s.a
  let result := wadd8 left right
  let f1 := F.set_z (result = 0) s.f
  let f2 := F.set_n false f1
  let f3 := F.set_h (Cpu.half_carry_positive left right) f2
  let f4 := F.set_c (Cpu.carry_positive left right) f3
  .ok { s with a := result, f := f4 }

def Cpu.add_carry_8_a_r (s : Cpu) (index : Nat) : Except EmuErr Cpu := do
  let c : Nat := if F.c s.f then 1 else 0
  let right ← s.r8 index
  let left := s.a
  let result1 := wadd8 left right
  let result2 := wadd8 result1 c
  let c1 := Cpu.carry_positive left right
  let h1 := Cpu.half_carry_positive left right
  let c2 := Cpu.carry_positive result1 c
  let h2 := Cpu.half_carry_positive result1 c
  let f1 := F.set_z (result2 = 0) s.f
  let f2 := F.set_n false f1
  let f3 := F.set_h (h1 || h2) f2
  let f4 := F.set_c (c1 || c2) f3
  .ok { s with a := result2, f := f4 }

def Cpu.add_carry_8_a_im8 (s : Cpu) : Except EmuErr Cpu :=
  let c : Nat := if F.c s.f then 1 else 0
  let right := s.bus.read s.pc
  let s := { s with pc := wadd16 s.pc 1 }
  let left := s.a
  let result1 := wadd8 left right
  let result2 := wadd8 result1 c
  let c1 := Cpu.carry_positive left right
  let h1 := Cpu.half_carry_positive left right
  let c2 := Cpu.carry_positive result1 c
  let h2 := Cpu.half_carry_positive result1 c
  let f1 := F.set_z (result2 = 0) s.f
  let f2 := F.set_n false f1
  let f3 := F.set_h (h1 || h2) f2
  let f4 := F.set_c (c1 || c2) f3
  .ok { s with a := result2, f := f4 }

def Cpu.sub_8_a_r (s : Cpu) (index : Nat) : Except EmuErr Cpu := do
  let left := s.a
  let right ← s.r8 index
  let result := wsub8 left right
  let f1 := F.set_z (result = 0) s.f
  let f2 := F.set_n true f1
  let f3 := F.set_h (Cpu.half_carry_negative left right) f2
  let f4 := F.set_c (Cpu.carry_negative left right) f3
  .ok { s with a := result, f := f4 }

def Cpu.sub_8_a_im8 (s : Cpu) : Except EmuErr Cpu :=
  let left := s.a
  let right := s.bus.read s.pc
  let s := { s with pc := wadd16 s.pc 1 }
  let result := wsub8 left right
  let f1 := F.set_z (result = 0) s.f
  let f2 := F.set_n true f1
  let f3 := F.set_h (Cpu.half_carry_negative left right) f2
  let f4 := F.set_c (Cpu.carry_negative left right) f3
  .ok { s with a := result, f := f4 }

def Cpu.sub_carry_8_a_r (s : Cpu) (index : Nat) : Except EmuErr Cpu := do
  let c : Nat := if F.c s.f then 1 else 0
  let left := s.a
  let right ← s.r8 index
  let result1 := wsub8 left right
  let result2 := wsub8 result1 c
  let c1 := Cpu.carry_negative left right
  let h1 := Cpu.half_carry_negative left right
  let c2 := Cpu.carry_negative result1 c
  let h2 := Cpu.half_carry_negative result1 c
  let f1 := F.set_z (result2 = 0) s.f
  let f2 := F.set_n true f1
  let f3 := F.set_h (h1 || h2) f2
  let f4 := F.set_c (c1 || c2) f3
  .ok { s with a := result2, f := f4 }

def Cpu.sub_carry_8_a_im8 (s : Cpu) : Except EmuErr Cpu :=
  let c : Nat := if F.c s.f then 1 else 0
  let left := s.a
  let right := s.bus.read s.pc
  let s := { s with pc := wadd16 s.pc 1 }
  let result1 := wsub8 left right
  let result2 := wsub8 result1 c
  let c1 := Cpu.carry_negative left right
  let h1 := Cpu.half_carry_negative left right
  let c2 := Cpu.carry_negative result1 c
  let h2 := Cpu.half_carry_negative result1 c
  let f1 := F.set_z (result2 = 0) s.f
  let f2 := F.set_n true f1
  let f3 := F.set_h (h1 || h2) f2
  let f4 := F.set_c (c1 || c2) f3
  .ok { s with a := result2, f := f4 }

def Cpu.and_8_a_r (s : Cpu) (index : Nat) : Except EmuErr Cpu := do
  let left := s.a
  let right ← s.r8 index
  let result := left &&& right
  let f1 := F.set_z (result = 0) s.f
  let f2 := F.set_n false f1
  let f3 := F.set_h true f2
  let f4 := F.set_c false f3
  .ok { s with a := result, f := f4 }

def Cpu.and_8_a_im8 (s : Cpu) : Except EmuErr Cpu :=
  let left := s.a
  let right := s.bus.read s.pc
  let s := { s with pc := wadd16 s.pc 1 }
  let result := left &&& right
  let f1 := F.set_z (result = 0) s.f
  let f2 := F.set_n false f1
  let f3 := F.set_h true f2
  let f4 := F.set_c false f3
  .ok { s with a := result, f := f4 }

def Cpu.or_8_a_r (s : Cpu) (index : Nat) : Except EmuErr Cpu := do
  let left := s.a
  let right ← s.r8 index
  let result := left ||| right
  let f1 := F.set_z (result = 0) s.f
  let f2 := F.set_n false f1
  let f3 := F.set_h false f2
  let f4 := F.set_c false f3
  .ok { s with a := result, f := f4 }

def Cpu.or_8_a_im8 (s : Cpu) : Except EmuErr Cpu :=
  let left := s.a
  let right := s.bus.read s.pc
  let s := { s with pc := wadd16 s.pc 1 }
  let result := left ||| right
  let f1 := F.set_z (result = 0) s.f
  let f2 := F.set_n false f1
  let f3 := F.set_h false f2
  let f4 := F.set_c false f3
  .ok { s with a := result, f := f4 }

def Cpu.xor_8_a_r (s : Cpu) (index : Nat) : Except EmuErr Cpu := do
  let left := s.a
  let right ← s.r8 index
  let result := left ^^^ right
  let f1 := F.set_z (result = 0) s.f
  let f2 := F.set_n false f1
  let f3 := F.set_h false f2
  let f4 := F.set_c false f3
  .ok { s with a := result, f := f4 }

def Cpu.xor_8_a_im8 (s : Cpu) : Except EmuErr Cpu :=
  let left := s.a
  let right := s.bus.read s.pc
  let s := { s with pc := wadd16 s.pc 1 }
  let result := left ^^^ right
  let f1 := F.set_z (result = 0) s.f
  let f2 := F.set_n false f1
  let f3 := F.set_h false f2
  let f4 := F.set_c false f3
  .ok { s with a := result, f := f4 }

/-- `Cpu::cp_8_a_r`: the source computes `left.wrapping_sub(left)` for the
Z flag (cpu.rs line 1189), so Z is set from `A - A`, not `A - operand`. -/
def Cpu.cp_8_a_r (s : Cpu) (index : Nat) : Except EmuErr Cpu := do
  let left := s.a
  let right ← s.r8 index
  let result := wsub8 left left
  let f1 := F.set_z (result = 0) s.f
  let f2 := F.set_n true f1
  let f3 := F.set_h (Cpu.half_carry_negative left right) f2
  let f4 := F.set_c (Cpu.carry_negative left right) f3
  .ok { s with f := f4 }

def Cpu.cp_8_a_im8 (s : Cpu) : Except EmuErr Cpu :=
  let left := s.a
  let right := s.bus.read s.pc
  let s := { s with pc := wadd16 s.pc 1 }
  let result := wsub8 left right
  let f1 := F.set_z (result = 0) s.f
  let f2 := F.set_n true f1
  let f3 := F.set_h (Cpu.half_carry_negative left right) f2
  let f4 := F.set_c (Cpu.carry_negative left right) f3
  .ok { s with f := f4 }

def Cpu.inc_8_r (s : Cpu) (index : Nat) : Except EmuErr Cpu := do
  let left ← s.r8 index
  let result := wadd8 left 1
  let s ← s.set_r8 index result
  let f1 := F.set_z (result = 0) s.f
  let f2 := F.set_n false f1
  let f3 := F.set_h (Cpu.half_carry_positive left 1) f2
  .ok { s with f := f3 }

def Cpu.dec_8_r (s : Cpu) (index : Nat) : Except EmuErr Cpu := do
  let left ← s.r8 index
  let result := wsub8 left 1
  let s ← s.set_r8 index result
  let f1 := F.set_z (result = 0) s.f
  let f2 := F.set_n true f1
  let f3 := F.set_h (Cpu.half_carry_negative left 1) f2
  .ok { s with f := f3 }

/-- `Cpu::add_16_hl_rr` (no Z update). -/
def Cpu.add_16_hl_rr (s : Cpu) (index : Nat) : Except EmuErr Cpu := do
  let left := s.hl
  let right ← s.r16 index false
  let result := wadd16 left right
  let f1 := F.set_n false s.f
  let f2 := F.set_h (Cpu.half_carry_positive_16 left right) f1
  let f3 := F.set_c (Cpu.carry_positive_16 left right) f2
  .ok { s with hl := result, f := f3 }

def Cpu.add_16_sp_im8 (s : Cpu) : Except EmuErr Cpu :=
  let left := s.sp
  let right := signExt8to16 (s.bus.read s.pc)
  let s := { s with pc := wadd16 s.pc 1 }
  let result := wadd16 left right
  let f1 := F.set_z false s.f
  let f2 := F.set_n false f1
  let f3 := F.set_h (Cpu.half_carry_positive_16 left right) f2
  let f4 := F.set_c (Cpu.carry_positive_16 left right) f3
  .ok { s with sp := result, f := f4 }

def Cpu.inc_16_rr (s : Cpu) (index : Nat) : Except EmuErr Cpu := do
  let left ← s.r16 index false
  s.set_r16 index (wadd16 left 1) false

def Cpu.dec_16_rr (s : Cpu) (index : Nat) : Except EmuErr Cpu := do
  let left ← s.r16 index false
  s.set_r16 index (wsub16 left 1) false

def Cpu.rlca_8 (s : Cpu) : Except EmuErr Cpu :=
  let val := s.a
  let c := (val >>> 7) &&& 1
  let result := (val <<< 1) % 256
  let f1 := F.set_z false s.f
  let f2 := F.set_n false f1
  let f3 := F.set_h false f2
  let f4 := F.set_c (c = 1) f3
  .ok { s with a := result, f := f4 }

def Cpu.rla_8 (s : Cpu) : Except EmuErr Cpu :=
  let val := s.a
  let c := (val >>> 7) &&& 1
  let result := (val <<< 1) % 256 ||| (if F.c s.f then 1 else 0)
  let f1 := F.set_z false s.f
  let f2 := F.set_n false f1
  let f3 := F.set_h false f2
  let f4 := F.set_c (c = 1) f3
  .ok { s with a := result, f := f4 }

def Cpu.rrca_8 (s : Cpu) : Except EmuErr Cpu :=
  let val := s.a
  let c := val &&& 1
  let result := val >>> 1
  let f1 := F.set_z false s.f
  let f2 := F.set_n false f1
  let f3 := F.set_h false f2
  let f4 := F.set_c (c = 1) f3
  .ok { s with a := result, f := f4 }

def Cpu.rra_8 (s : Cpu) : Except EmuErr Cpu :=
  let val := s.a
  let c := val &&& 1
  let result := val >>> 1 ||| ((if F.c s.f then 1 else 0) <<< 7)
  let f1 := F.set_z false s.f
  let f2 := F.set_n false f1
  let f3 := F.set_h false f2
  let f4 := F.set_c (c = 1) f3
  .ok { s with a := result, f := f4 }

def Cpu.rlc_8_r (s : Cpu) (index : Nat) : Except EmuErr Cpu := do
  let val ← s.r8 index
  let c := (val >>> 7) &&& 1
  let result := ((val <<< 1) ||| (val >>> 7)) % 256
  let s ← s.set_r8 index result
  let f1 := F.set_z (result = 0) s.f
  let f2 := F.set_n false f1
  let f3 := F.set_h false f2
  let f4 := F.set_c (c = 1) f3
  .ok { s with f := f4 }

def Cpu.rl_8_r (s : Cpu) (index : Nat) : Except EmuErr Cpu := do
  let val ← s.r8 index
  let c := (val >>> 7) &&& 1
  let result := (val <<< 1) % 256 ||| (if F.c s.f then 1 else 0)
  let s ← s.set_r8 index result
  let f1 := F.set_z (result = 0) s.f
  let f2 := F.set_n false f1
  let f3 := F.set_h false f2
  let f4 := F.set_c (c = 1) f3
  .ok { s with f := f4 }

def Cpu.rrc_8_r (s : Cpu) (index : Nat) : Except EmuErr Cpu := do
  let val ← s.r8 index
  let c := val &&& 1
  let result := ((val >>> 1) ||| ((val &&& 1) <<< 7)) % 256
  let s ← s.set_r8 index result
  let f1 := F.set_z (result = 0) s.f
  let f2 := F.set_n false f1
  let f3 := F.set_h false f2
  let f4 := F.set_c (c = 1) f3
  .ok { s with f := f4 }

def Cpu.rr_8_r (s : Cpu) (index : Nat) : Except EmuErr Cpu := do
  let val ← s.r8 index
  let c := val &&& 1
  let result := val >>> 1 ||| ((if F.c s.f then 1 else 0) <<< 7)
  let s ← s.set_r8 index result
  let f1 := F.set_z (result = 0) s.f
  let f2 := F.set_n false f1
  let f3 := F.set_h false f2
  let f4 := F.set_c (c = 1) f3
  .ok { s with f := f4 }

def Cpu.sla_8_r (s : Cpu) (index : Nat) : Except EmuErr Cpu := do
  let val ← s.r8 index
  let c := (val >>> 7) &&& 1
  let result := (val <<< 1) % 256
  let s ← s.set_r8 index result
  let f1 := F.set_z (result = 0) s.f
  let f2 := F.set_n false f1
  let f3 := F.set_h false f2
  let f4 := F.set_c (c = 1) f3
  .ok { s with f := f4 }

def Cpu.sra_8_r (s : Cpu) (index : Nat) : Except EmuErr Cpu := do
  let val ← s.r8 index
  let c := val &&& 1
  let result := val >>> 1 ||| (val &&& 0b10000000)
  let s ← s.set_r8 index result
  let f1 := F.set_z (result = 0) s.f
  let f2 := F.set_n false f1
  let f3 := F.set_h false f2
  let f4 := F.set_c (c = 1) f3
  .ok { s with f := f4 }

def Cpu.srl_8_r (s : Cpu) (index : Nat) : Except EmuErr Cpu := do
  let val ← s.r8 index
  let c := val &&& 1
  let result := val >>> 1
  let s ← s.set_r8 index result
  let f1 := F.set_z (result = 0) s.f
  let f2 := F.set_n false f1
  let f3 := F.set_h false f2
  let f4 := F.set_c (c = 1) f3
  .ok { s with f := f4 }

def Cpu.bit_8_bit_r (s : Cpu) (index bit : Nat) : Except EmuErr Cpu := do
  let left ← s.r8 index
  let result := (left >>> bit) &&& 1
  let f1 := F.set_z (result = 0) s.f
  let f2 := F.set_n false f1
  let f3 := F.set_h true f2
  .ok { s with f := f3 }

def Cpu.set_8_bit_r (s : Cpu) (index bit : Nat) : Except EmuErr Cpu := do
  let left ← s.r8 index
  let result := left ||| (1 <<< bit)
  s.set_r8 index result

def Cpu.reset_8_bit_r (s : Cpu) (index bit : Nat) : Except EmuErr Cpu := do
  let left ← s.r8 index
  let result := left &&& (255 ^^^ (1 <<< bit))
  s.set_r8 index result

def Cpu.swap_8_r (s : Cpu) (index : Nat) : Except EmuErr Cpu := do
  let val ← s.r8 index
  let high := val &&& 0xF0
  let low := val &&& 0x0F
  let result := (high >>> 4) ||| (low <<< 4)
  let s ← s.set_r8 index result
  let f1 := F.set_z (result = 0) s.f
  let f2 := F.set_n false f1
  let f3 := F.set_h false f2
  let f4 := F.set_c false f3
  .ok { s with f := f4 }

/-- `Cpu::decimal_adjust_8_a`: translated as written (note `result` starts at
0 and is only assigned inside the adjustment branches). -/
def Cpu.decimal_adjust_8_a (s : Cpu) : Except EmuErr Cpu :=
  let val := s.a
  let rf : Nat × Nat :=
    if !F.n s.f then
      let rf1 : Nat × Nat :=
        if F.c s.f ∨ val > 0x99 then (wadd8 val 0x60, F.set_c true s.f)
        else (0, s.f)
      if F.h s.f ∨ (val &&& 0x0F) > 0x09 then (wadd8 val 0x06, rf1.2) else rf1
    else
      let r1 : Nat := if F.c s.f then wsub8 val 0x60 else 0
      if F.h s.f then (wsub8 val 0x06, s.f) else (r1, s.f)
  let result := rf.1
  let f1 := F.set_z (result = 0) rf.2
  let f2 := F.set_h false f1
  .ok { s with a := result, f := f2 }

def Cpu.complement_8_a (s : Cpu) : Except EmuErr Cpu :=
  let result := 255 ^^^ (s.a % 256)
  let f1 := F.set_n true s.f
  let f2 := F.set_h true f1
  .ok { s with a := result, f := f2 }

def Cpu.complement_carry (s : Cpu) : Except EmuErr Cpu :=
  let result := !F.c s.f
  let f1 := F.set_n false s.f
  let f2 := F.set_h false f1
  let f3 := F.set_c result f2
  .ok { s with f := f3 }

def Cpu.set_carry_flag (s : Cpu) : Except EmuErr Cpu :=
  let f1 := F.set_n false s.f
  let f2 := F.set_h false f1
  let f3 := F.set_c true f2
  .ok { s with f := f3 }

def Cpu.jp_16 (s : Cpu) : Except EmuErr Cpu :=
  .ok { s with pc := s.bus.read_word s.pc }

def Cpu.jp_16_nz (s : Cpu) : Except EmuErr Cpu :=
  let addr := s.bus.read_word s.pc
  let s := { s with pc := wadd16 s.pc 2 }
  .ok (if !F.z s.f then { s with pc := addr } else s)

def Cpu.jp_16_z (s : Cpu) : Except EmuErr Cpu :=
  let addr := s.bus.read_word s.pc
  let s := { s with pc := wadd16 s.pc 2 }
  .ok (if F.z s.f then { s with pc := addr } else s)

def Cpu.jp_16_nc (s : Cpu) : Except EmuErr Cpu :=
  let addr := s.bus.read_word s.pc
  let s := { s with pc := wadd16 s.pc 2 }
  .ok (if !F.c s.f then { s with pc := addr } else s)

def Cpu.jp_16_c (s : Cpu) : Except EmuErr Cpu :=
  let addr := s.bus.read_word s.pc
  let s := { s with pc := wadd16 s.pc 2 }
  .ok (if F.c s.f then { s with pc := addr } else s)

def Cpu.jp_16_hl (s : Cpu) : Except EmuErr Cpu := .ok { s with pc := s.hl }

def Cpu.jr_8_im_8 (s : Cpu) : Except EmuErr Cpu :=
  let index := s.bus.read s.pc
  let s := { s with pc := wadd16 s.pc 1 }
  .ok { s with pc := wadd16 s.pc (signExt8to16 index) }

def Cpu.jr_8_nz (s : Cpu) : Except EmuErr Cpu :=
  let index := s.bus.read s.pc
  let s := { s with pc := wadd16 s.pc 1 }
  .ok (if !F.z s.f then { s with pc := wadd16 s.pc (signExt8to16 index) } else s)

def Cpu.jr_8_z (s : Cpu) : Except EmuErr Cpu :=
  let index := s.bus.read s.pc
  let s := { s with pc := wadd16 s.pc 1 }
  .ok (if F.z s.f then { s with pc := wadd16 s.pc (signExt8to16 index) } else s)

def Cpu.jr_8_nc (s : Cpu) : Except EmuErr Cpu :=
  let index := s.bus.read s.pc
  let s := { s with pc := wadd16 s.pc 1 }
  .ok (if !F.c s.f then { s with pc := wadd16 s.pc (signExt8to16 index) } else s)

def Cpu.jr_8_c (s : Cpu) : Except EmuErr Cpu :=
  let index := s.bus.read s.pc
  let s := { s with pc := wadd16 s.pc 1 }
  .ok (if F.c s.f then { s with pc := wadd16 s.pc (signExt8to16 index) } else s)

def Cpu.call_16 (s : Cpu) : Except EmuErr Cpu :=
  let addr := s.bus.read_word s.pc
  let s := { s with pc := wadd16 s.pc 2 }
  .ok (s.call addr)

def Cpu.call_16_nz (s : Cpu) : Except EmuErr Cpu :=
  let addr := s.bus.read_word s.pc
  let s := { s with pc := wadd16 s.pc 2 }
  .ok (if !F.z s.f then s.call addr else s)

def Cpu.call_16_z (s : Cpu) : Except EmuErr Cpu :=
  let addr := s.bus.read_word s.pc
  let s := { s with pc := wadd16 s.pc 2 }
  .ok (if F.z s.f then s.call addr else s)

def Cpu.call_16_nc (s : Cpu) : Except EmuErr Cpu :=
  let addr := s.bus.read_word s.pc
  let s := { s with pc := wadd16 s.pc 2 }
  .ok (if !F.c s.f then s.call addr else s)

def Cpu.call_16_c (s : Cpu) : Except EmuErr Cpu :=
  let addr := s.bus.read_word s.pc
  let s := { s with pc := wadd16 s.pc 2 }
  .ok (if F.c s.f then s.call addr else s)

/-- `Cpu::restart` (RST): the source writes PC at the current SP and only then
decrements SP, and jumps to `param` itself (x), not `8 * x`. -/
def Cpu.restart (s : Cpu) (param : Nat) : Except EmuErr Cpu :=
  let addr := param
  let s := { s with bus := s.bus.write_word s.sp s.pc }
  .ok { s with sp := wsub16 s.sp 2, pc := addr }

def Cpu.ret (s : Cpu) : Except EmuErr Cpu :=
  let addr := s.bus.read_word s.sp
  .ok { s with sp := wadd16 s.sp 2, pc := addr }

def Cpu.ret_nz (s : Cpu) : Except EmuErr Cpu :=
  let addr := s.bus.read_word s.sp
  .ok (if !F.z s.f then { s with sp := wadd16 s.sp 2, pc := addr } else s)

def Cpu.ret_z (s : Cpu) : Except EmuErr Cpu :=
  let addr := s.bus.read_word s.sp
  .ok (if F.z s.f then { s with sp := wadd16 s.sp 2, pc := addr } else s)

def Cpu.ret_nc (s : Cpu) : Except EmuErr Cpu :=
  let addr := s.bus.read_word s.sp
  .ok (if !F.c s.f then { s with sp := wadd16 s.sp 2, pc := addr } else s)

def Cpu.ret_c (s : Cpu) : Except EmuErr Cpu :=
  let addr := s.bus.read_word s.sp
  .ok (if F.c s.f then { s with sp := wadd16 s.sp 2, pc := addr } else s)

def Cpu.reti (s : Cpu) : Except EmuErr Cpu :=
  let addr := s.bus.read_word s.sp
  .ok { s with sp := wadd16 s.sp 2, pc := addr, ime := true }

/-- `Cpu::do_mnemonic_prefixed`: decode of the 0xCB-prefixed table, in the
source's arm order.  Every byte matches one of the patterns, so the source's
`_` fallthrough (log, `Ok("UNIMPLEMENTED")`) is unreachable but kept. -/
def Cpu.do_mnemonic_prefixed (s : Cpu) (opecode : Nat) : Except EmuErr Cpu :=
  if opecode &&& 0xF8 = 0x30 then s.swap_8_r (opecode &&& 7)
  else if opecode &&& 0xF8 = 0x00 then s.rlc_8_r (opecode &&& 7)
  else if opecode &&& 0xF8 = 0x10 then s.rl_8_r (opecode &&& 7)
  else if opecode &&& 0xF8 = 0x08 then s.rrc_8_r (opecode &&& 7)
  else if opecode &&& 0xF8 = 0x18 then s.rr_8_r (opecode &&& 7)
  else if opecode &&& 0xF8 = 0x20 then s.sla_8_r (opecode &&& 7)
  else if opecode &&& 0xF8 = 0x28 then s.sra_8_r (opecode &&& 7)
  else if opecode &&& 0xF8 = 0x38 then s.srl_8_r (opecode &&& 7)
  else if opecode &&& 0xC0 = 0x40 then
    s.bit_8_bit_r (opecode &&& 7) ((opecode >>> 3) &&& 7)
  else if opecode &&& 0xC0 = 0xC0 then
    s.set_8_bit_r (opecode &&& 7) ((opecode >>> 3) &&& 7)
  else if opecode &&& 0xC0 = 0x80 then
    s.reset_8_bit_r (opecode &&& 7) ((opecode >>> 3) &&& 7)
  else .ok s

/-- `Cpu::do_mnemonic`: the bit-pattern decode table, in the source's arm
order.  An opcode matched by no pattern falls through to the source's `_` arm,
which logs "unimplemented opecode" and returns `Ok("UNIMPLEMENTED")` — i.e.
success with no state change. -/
def Cpu.do_mnemonic (s : Cpu) (opecode : Nat) : Except EmuErr Cpu :=
  if opecode = 0x00 then s.nop
  else if opecode = 0x76 then s.halt_instr
  else if opecode = 0x10 then s.stop
  else if opecode = 0xF3 then s.di
  else if opecode = 0xFB then s.ei
  else if opecode &&& 0xC0 = 0x40 then
    s.load_8_r_r ((opecode >>> 3) &&& 7) (opecode &&& 7)
  else if opecode &&& 0xC7 = 0x06 then s.load_8_r_im8 ((opecode >>> 3) &&& 7)
  else if opecode = 0x0A then s.load_8_a_addr_bc
  else if opecode = 0x1A then s.load_8_a_addr_de
  else if opecode = 0x02 then s.load_8_addr_bc_a
  else if opecode = 0x12 then s.load_8_addr_de_a
  else if opecode = 0xFA then s.load_8_a_addr_im16
  else if opecode = 0xEA then s.load_8_addr_im16_a
  else if opecode = 0xF2 then s.load_8_a_addr_index_c
  else if opecode = 0xE2 then s.load_8_addr_index_c_a
  else if opecode = 0xF0 then s.load_8_a_addr_index_im8
  else if opecode = 0xE0 then s.load_8_addr_index_im8_a
  else if opecode = 0x3A then s.load_dec_8_a_addr_hl
  else if opecode = 0x32 then s.load_dec_8_addr_hl_a
  else if opecode = 0x2A then s.load_inc_8_a_addr_hl
  else if opecode = 0x22 then s.load_inc_8_addr_hl_a
  else if opecode &&& 0xCF = 0x01 then s.load_16_rr_im16 ((opecode >>> 4) &&& 3)
  else if opecode = 0x08 then s.load_16_addr_im16_sp
  else if opecode = 0xF8 then s.load_16_hl_index_im8_sp
  else if opecode = 0xF9 then s.load_16_sp_hl
  else if opecode &&& 0xCF = 0xC5 then s.push_16_rr ((opecode >>> 4) &&& 3)
  else if opecode &&& 0xCF = 0xC1 then s.pop_16_rr ((opecode >>> 4) &&& 3)
  else if opecode &&& 0xF8 = 0x80 then s.add_8_a_r (opecode &&& 7)
  else if opecode = 0xC6 then s.add_8_a_im8
  else if opecode &&& 0xF8 = 0x88 then s.add_carry_8_a_r (opecode &&& 7)
  else if opecode = 0xCE then s.add_carry_8_a_im8
  else if opecode &&& 0xF8 = 0x90 then s.sub_8_a_r (opecode &&& 7)
  else if opecode = 0xD6 then s.sub_8_a_im8
  else if opecode &&& 0xF8 = 0x98 then s.sub_carry_8_a_r (opecode &&& 7)
  else if opecode = 0xDE then s.sub_carry_8_a_im8
  else if opecode &&& 0xF8 = 0xA0 then s.and_8_a_r (opecode &&& 7)
  else if opecode = 0xE6 then s.and_8_a_im8
  else if opecode &&& 0xF8 = 0xB0 then s.or_8_a_r (opecode &&& 7)
  else if opecode = 0xF6 then s.or_8_a_im8
  else if opecode &&& 0xF8 = 0xA8 then s.xor_8_a_r (opecode &&& 7)
  else if opecode = 0xEE then s.xor_8_a_im8
  else if opecode &&& 0xF8 = 0xB8 then s.cp_8_a_r (opecode &&& 7)
  else if opecode = 0xFE then s.cp_8_a_im8
  else if opecode &&& 0xC7 = 0x04 then s.inc_8_r ((opecode >>> 3) &&& 7)
  else if opecode &&& 0xC7 = 0x05 then s.dec_8_r ((opecode >>> 3) &&& 7)
  else if opecode &&& 0xCF = 0x09 then s.add_16_hl_rr ((opecode >>> 4) &&& 3)
  else if opecode = 0xE8 then s.add_16_sp_im8
  else if opecode &&& 0xCF = 0x03 then s.inc_16_rr ((opecode >>> 4) &&& 3)
  else if opecode &&& 0xCF = 0x0B then s.dec_16_rr ((opecode >>> 4) &&& 3)
  else if opecode = 0x07 then s.rlca_8
  else if opecode = 0x17 then s.rla_8
  else if opecode = 0x0F then s.rrca_8
  else if opecode = 0x1F then s.rra_8
  else if opecode = 0x27 then s.decimal_adjust_8_a
  else if opecode = 0x2F then s.complement_8_a
  else if opecode = 0x3F then s.complement_carry
  else if opecode = 0x37 then s.set_carry_flag
  else if opecode = 0xC3 then s.jp_16
  else if opecode = 0xC2 then s.jp_16_nz
  else if opecode = 0xCA then s.jp_16_z
  else if opecode = 0xD2 then s.jp_16_nc
  else if opecode = 0xDA then s.jp_16_c
  else if opecode = 0xE9 then s.jp_16_hl
  else if opecode = 0x18 then s.jr_8_im_8
  else if opecode = 0x20 then s.jr_8_nz
  else if opecode = 0x28 then s.jr_8_z
  else if opecode = 0x30 then s.jr_8_nc
  else if opecode = 0x38 then s.jr_8_c
  else if opecode = 0xCD then s.call_16
  else if opecode = 0xC4 then s.call_16_nz
  else if opecode = 0xCC then s.call_16_z
  else if opecode = 0xD4 then s.call_16_nc
  else if opecode = 0xDC then s.call_16_c
  else if opecode &&& 0xC7 = 0xC7 then s.restart ((opecode >>> 3) &&& 7)
  else if opecode = 0xC9 then s.ret
  else if opecode = 0xC0 then s.ret_nz
  else if opecode = 0xC8 then s.ret_z
  else if opecode = 0xD0 then s.ret_nc
  else if opecode = 0xD8 then s.ret_c
  else if opecode = 0xD9 then s.reti
  else if opecode = 0xCB then
    let prefixed := s.bus.read s.pc
    let s := { s with pc := wadd16 s.pc 1 }
    s.do_mnemonic_prefixed prefixed
  else .ok s

/-- `Cpu::tick`: service an interrupt if IME is set, then either burn a stall
cycle, stay halted, or fetch-and-execute one opcode (the debugger/trace
console I/O of the source is elided). -/
def Cpu.tick (s : Cpu) : Except EmuErr Cpu :=
  let s1 :=
    if s.ime then
      match s.interrupt with
      | some s' => { s' with ime := false, halt := false }
      | none => s
    else s
  if s1.stalls > 0 then .ok { s1 with stalls := s1.stalls - 1 }
  else if s1.halt then .ok s1
  else
    let opecode := s1.bus.read s1.pc
    let s2 := { s1 with pc := wadd16 s1.pc 1 }
    s2.do_mnemonic opecode

/-! ## Reference flag formulas, modelled from the spec's words (§4.1):
"result = wrapping 8-bit add/sub; Z = (result==0); N = (0 for add-family, 1
for sub-family); H = carry out of bit 3 … for addition, set when both
3-bit-truncated operands exceed 0xF when summed; for subtraction, set when
borrow occurs at bit 3; C = carry/borrow out of bit 7 analogously."
These are deliberately written with `%` / `<` arithmetic (not the source's
mask operations) and the implementation is proved against them. -/

def specAddZ (a b : Nat) : Bool := decide ((a + b) % 256 = 0)

def specAddH (a b : Nat) : Bool := decide (a % 16 + b % 16 ≥ 16)

def specAddC (a b : Nat) : Bool := decide (a + b ≥ 256)

def specSubZ (a b : Nat) : Bool := decide ((a + 256 - b % 256) % 256 = 0)

def specSubH (a b : Nat) : Bool := decide (a % 16 < b % 16)

def specSubC (a b : Nat) : Bool := decide (a % 256 < b % 256)

/-! ## Concrete sample states used by the witnesses and counterexamples -/

def sampleRom : Rom := { data := fun _ => 0 }

def sampleCpu : Cpu := Cpu.new (Bus.new Ppu.new (Mbc1.new sampleRom))

/-- An execution state about to fetch the unmatched opcode 0xD3 (work RAM at
0xC000 holds 0xD3, PC points there). -/
def sampleCpuD3 : Cpu :=
  { sampleCpu with
    pc := 0xC000
    bus := { sampleCpu.bus with ram := fun n => if n = 0 then 0xD3 else 0 } }

/-- IME set, vblank interrupt pending and enabled, PC = 0x1234, SP = 0xD000,
all memory zero (so the byte at the vblank vector 0x0040 is the NOP opcode). -/
def sampleCpuIrq : Cpu :=
  { sampleCpu with
    ime := true
    pc := 0x1234
    sp := 0xD000
    bus := { sampleCpu.bus with
      ie := 1
      ppu := { sampleCpu.bus.ppu with int_v_blank := true } } }

/-- A = 0x05 and B = 0x03 (for CP A,B). -/
def sampleCpuCp : Cpu := { sampleCpu with a := 5, bc := 0x0300 }

/-- SP = 0xD000, PC = 0x1234 (for RST). -/
def sampleCpuRst : Cpu := { sampleCpu with sp := 0xD000, pc := 0x1234 }

/-- SP = 0x0FFF with immediate byte 1 at PC = 0xC000 (for LD HL,SP+n /
ADD SP,n: the 16-bit addition 0x0FFF + 1 half-carries at bit 11 but does not
carry at bit 15). -/
def sampleCpuSpIm : Cpu :=
  { sampleCpu with
    sp := 0x0FFF
    pc := 0xC000
    bus := { sampleCpu.bus with ram := fun n => if n = 0 then 1 else 0 } }

/-- An enabled timer (clock bit 9) holding TIMA = 0xFF whose `prev` latch is
set while the counter sits at 0 — the state `write_div` leaves after the
counter had bit 9 set (spec §4.4: the DIV-write spurious edge "must be
modeled"). -/
def sampleTimerWrap : Timer :=
  { counter := 0, tima := 0xFF, tma := 0x42, enable := true,
    clock := .Clock4096, prev := true, int := false }

/-- A freshly enabled timer, clock select 0b00 (counter bit 9). -/
def sampleTimerRun : Timer :=
  { Timer.default with enable := true, clock := .Clock4096 }

/-- The backing-array index of a work-RAM (0xC000–0xDFFF) or echo-RAM
(0xE000–0xFDFF) bus address, as computed by `Bus::read`/`Bus::write`. -/
def wramIndex (addr : Nat) : Nat :=
  if addr ≤ 0xDFFF then addr - 0xC000 else addr - 0xE000

/-! # Theorems -/

/-! ## Flags register lemmas -/

@[simp] theorem F.z_set_z (b : Bool) (f : Nat) : F.z (F.set_z b f) = b := by
  cases b <;>
    simp [F.z, F.set_z, Nat.testBit_or, Nat.testBit_and,
      show Nat.testBit 127 7 = false from by decide,
      show Nat.testBit 128 7 = true from by decide]

@[simp] theorem F.z_set_n (b : Bool) (f : Nat) : F.z (F.set_n b f) = F.z f := by
  cases b <;>
    simp [F.z, F.set_n, Nat.testBit_or, Nat.testBit_and,
      show Nat.testBit 191 7 = true from by decide,
      show Nat.testBit 64 7 = false from by decide]

@[simp] theorem F.z_set_h (b : Bool) (f : Nat) : F.z (F.set_h b f) = F.z f := by
  cases b <;>
    simp [F.z, F.set_h, Nat.testBit_or, Nat.testBit_and,
      show Nat.testBit 223 7 = true from by decide,
      show Nat.testBit 32 7 = false from by decide]

@[simp] theorem F.z_set_c (b : Bool) (f : Nat) : F.z (F.set_c b f) = F.z f := by
  cases b <;>
    simp [F.z, F.set_c, Nat.testBit_or, Nat.testBit_and,
      show Nat.testBit 239 7 = true from by decide,
      show Nat.testBit 16 7 = false from by decide]

@[simp] theorem F.n_set_z (b : Bool) (f : Nat) : F.n (F.set_z b f) = F.n f := by
  cases b <;>
    simp [F.n, F.set_z, Nat.testBit_or, Nat.testBit_and,
      show Nat.testBit 127 6 = true from by decide,
      show Nat.testBit 128 6 = false from by decide]

@[simp] theorem F.n_set_n (b : Bool) (f : Nat) : F.n (F.set_n b f) = b := by
  cases b <;>
    simp [F.n, F.set_n, Nat.testBit_or, Nat.testBit_and,
      show Nat.testBit 191 6 = false from by decide,
      show Nat.testBit 64 6 = true from by decide]

@[simp] theorem F.n_set_h (b : Bool) (f : Nat) : F.n (F.set_h b f) = F.n f := by
  cases b <;>
    simp [F.n, F.set_h, Nat.testBit_or, Nat.testBit_and,
      show Nat.testBit 223 6 = true from by decide,
      show Nat.testBit 32 6 = false from by decide]

@[simp] theorem F.n_set_c (b : Bool) (f : Nat) : F.n (F.set_c b f) = F.n f := by
  cases b <;>
    simp [F.n, F.set_c, Nat.testBit_or, Nat.testBit_and,
      show Nat.testBit 239 6 = true from by decide,
      show Nat.testBit 16 6 = false from by decide]

@[simp] theorem F.h_set_z (b : Bool) (f : Nat) : F.h (F.set_z b f) = F.h f := by
  cases b <;>
    simp [F.h, F.set_z, Nat.testBit_or, Nat.testBit_and,
      show Nat.testBit 127 5 = true from by decide,
      show Nat.testBit 128 5 = false from by decide]

@[simp] theorem F.h_set_n (b : Bool) (f : Nat) : F.h (F.set_n b f) = F.h f := by
  cases b <;>
    simp [F.h, F.set_n, Nat.testBit_or, Nat.testBit_and,
      show Nat.testBit 191 5 = true from by decide,
      show Nat.testBit 64 5 = false from by decide]

@[simp] theorem F.h_set_h (b : Bool) (f : Nat) : F.h (F.set_h b f) = b := by
  cases b <;>
    simp [F.h, F.set_h, Nat.testBit_or, Nat.testBit_and,
      show Nat.testBit 223 5 = false from by decide,
      show Nat.testBit 32 5 = true from by decide]

@[simp] theorem F.h_set_c (b : Bool) (f : Nat) : F.h (F.set_c b f) = F.h f := by
  cases b <;>
    simp [F.h, F.set_c, Nat.testBit_or, Nat.testBit_and,
      show Nat.testBit 239 5 = true from by decide,
      show Nat.testBit 16 5 = false from by decide]

@[simp] theorem F.c_set_z (b : Bool) (f : Nat) : F.c (F.set_z b f) = F.c f := by
  cases b <;>
    simp [F.c, F.set_z, Nat.testBit_or, Nat.testBit_and,
      show Nat.testBit 127 4 = true from by decide,
      show Nat.testBit 128 4 = false from by decide]

@[simp] theorem F.c_set_n (b : Bool) (f : Nat) : F.c (F.set_n b f) = F.c f := by
  cases b <;>
    simp [F.c, F.set_n, Nat.testBit_or, Nat.testBit_and,
      show Nat.testBit 191 4 = true from by decide,
      show Nat.testBit 64 4 = false from by decide]

@[simp] theorem F.c_set_h (b : Bool) (f : Nat) : F.c (F.set_h b f) = F.c f := by
  cases b <;>
    simp [F.c, F.set_h, Nat.testBit_or, Nat.testBit_and,
      show Nat.testBit 223 4 = true from by decide,
      show Nat.testBit 32 4 = false from by decide]

@[simp] theorem F.c_set_c (b : Bool) (f : Nat) : F.c (F.set_c b f) = b := by
  cases b <;>
    simp [F.c, F.set_c, Nat.testBit_or, Nat.testBit_and,
      show Nat.testBit 239 4 = false from by decide,
      show Nat.testBit 16 4 = true from by decide]

/-! ## C1: unknown-opcode handling -/

/-- Claim C1, counterexample: fetching the unmatched opcode byte 0xD3 makes
`Cpu.tick` return success (PC simply advanced past the byte), not a fatal,
propagated error as claimed. -/
theorem C1_cex_unknown_opcode_tick_succeeds :
    ∃ s', Cpu.tick sampleCpuD3 = .ok s' ∧ s'.pc = 0xC001 := ⟨_, rfl, rfl⟩

/-- Claim C1 (amended): an opcode byte matched by no decode pattern is not an
error: `do_mnemonic` falls through to the catch-all arm, which logs and
returns success with the state unchanged, so the tick completes normally.
(The eleven bytes listed are exactly the first-byte encodings no pattern of
`do_mnemonic` matches; every 0xCB-prefixed second byte is matched.) -/
theorem C1_thm_unmatched_opcode_is_success_noop (s : Cpu) (op : Nat)
    (h : op ∈ [0xD3, 0xDB, 0xDD, 0xE3, 0xE4, 0xEB, 0xEC, 0xED, 0xF4, 0xFC, 0xFD]) :
    s.do_mnemonic op = .ok s := by
  fin_cases h <;> rfl

/-- Witness for C1's theorem at opcode 0xD3. -/
theorem C1_wit_unmatched_opcode :
    (0xD3 : Nat) ∈ [0xD3, 0xDB, 0xDD, 0xE3, 0xE4, 0xEB, 0xEC, 0xED, 0xF4, 0xFC, 0xFD]
      ∧ sampleCpu.do_mnemonic 0xD3 = .ok sampleCpu :=
  ⟨by decide, C1_thm_unmatched_opcode_is_success_noop sampleCpu 0xD3 (by decide)⟩

/-! ## C3: CP A,r -/

/-- Claim C3, failing input: with A = 0x05 and B = 0x03, CP A,B sets Z even
though A ≠ B — the source computes `left.wrapping_sub(left)` for the Z flag
(cpu.rs:1189) instead of `left.wrapping_sub(right)` (as its own immediate
variant `cp_8_a_im8` does), so Z is always set.  A is left unchanged and
N/H/C follow the claimed formulas. -/
theorem C3_thm_cp_r_z_always_set :
    ∃ s', Cpu.cp_8_a_r sampleCpuCp 0 = .ok s'
      ∧ F.z s'.f = true ∧ s'.a = 0x05 ∧ sampleCpuCp.b = 0x03
      ∧ F.n s'.f = true ∧ F.h s'.f = false ∧ F.c s'.f = false :=
  ⟨_, rfl, rfl, rfl, rfl, rfl, rfl, rfl⟩

/-! ## C6: RST -/

/-- Claim C6, failing input: RST with x = 1, SP = 0xD000, PC = 0x1234.  The
source stores PC at the pre-decrement SP (0xD000) and only then decrements
SP, and jumps to x itself (0x0001) instead of the vector 8·x (0x0008); the
word at the post-decrement SP (0xCFFE) is untouched. -/
theorem C6_thm_rst_wrong_push_and_vector :
    ∃ s', Cpu.restart sampleCpuRst 1 = .ok s'
      ∧ s'.pc = 0x0001 ∧ s'.sp = 0xCFFE
      ∧ s'.bus.read_word 0xD000 = 0x1234 ∧ s'.bus.read_word 0xCFFE = 0 :=
  ⟨_, rfl, rfl, rfl, rfl, rfl⟩

/-! ## C7: ADD SP,n and LD HL,SP+n -/

/-- Claim C7, failing input: SP = 0x0FFF, immediate n = 1.  The addition
half-carries at bit 11 and does not carry at bit 15, so the claim requires
H = 1 and C = 0 — `add_16_sp_im8` delivers that, but `load_16_hl_index_im8_sp`
(LD HL,SP+n) feeds `carry_positive_16` into `set_h` and
`half_carry_positive_16` into `set_c` (cpu.rs:866–868), producing the swapped
H = 0, C = 1. -/
theorem C7_thm_ld_hl_sp_flags_swapped :
    (∃ s', Cpu.load_16_hl_index_im8_sp sampleCpuSpIm = .ok s'
      ∧ s'.hl = 0x1000 ∧ F.h s'.f = false ∧ F.c s'.f = true
      ∧ F.z s'.f = false ∧ F.n s'.f = false)
    ∧ (∃ s', Cpu.add_16_sp_im8 sampleCpuSpIm = .ok s'
      ∧ s'.sp = 0x1000 ∧ F.h s'.f = true ∧ F.c s'.f = false
      ∧ F.z s'.f = false ∧ F.n s'.f = false) :=
  ⟨⟨_, rfl, rfl, rfl, rfl, rfl, rfl⟩, ⟨_, rfl, rfl, rfl, rfl, rfl, rfl⟩⟩

/-! ## C4 counterexample: timer overflow without reload -/

/-- Claim C4, counterexample: an enabled bit-9 timer with `prev` latched true
and the counter at 0 (the state a DIV write leaves behind) ticks to counter 1:
the falling edge increments TIMA, wrapping 0xFF → 0x00, but since
`counter % 4 ≠ 0` the TMA reload is skipped and the interrupt flag stays
clear — the claimed "unconditionally, for every such overflow" fails. -/
theorem C4_cex_overflow_without_reload :
    sampleTimerWrap.enable = true ∧ sampleTimerWrap.tima = 0xFF
      ∧ sampleTimerWrap.prev = true
      ∧ (Timer.tick sampleTimerWrap).prev = false
      ∧ (Timer.tick sampleTimerWrap).tima = 0x00
      ∧ (Timer.tick sampleTimerWrap).int = false
      ∧ (Timer.tick sampleTimerWrap).tima ≠ sampleTimerWrap.tma := by
  refine ⟨rfl, rfl, rfl, rfl, rfl, rfl, ?_⟩
  decide

/-! ## C2 counterexample: the tick does not end at the vector -/

/-- Claim C2, counterexample: with IME set and vblank pending+enabled (state
`sampleCpuIrq`, all memory zero), `Cpu.tick` dispatches the interrupt and then
continues by fetching and executing the NOP at the vector within the same
call, so the post-tick PC is 0x0041, not the claimed 0x0040. -/
theorem C2_cex_tick_executes_past_vector :
    ∃ s', Cpu.tick sampleCpuIrq = .ok s' ∧ s'.pc = 0x0041 ∧ s'.pc ≠ 0x0040 := by
  refine ⟨_, rfl, rfl, ?_⟩
  decide

/-! ## Bus lemmas for the work/echo-RAM window -/

theorem Bus.write_wram (b : Bus) (addr val : Nat)
    (h1 : 0xC000 ≤ addr) (h2 : addr ≤ 0xFDFF) :
    b.write addr val =
      { b with ram := fun n => if n = wramIndex addr then val else b.ram n } := by
  unfold Bus.write wramIndex
  rw [if_neg (by omega), if_neg (by omega), if_neg (by omega)]
  by_cases h : addr ≤ 0xDFFF
  · rw [if_pos h, if_pos h]
  · rw [if_neg h, if_neg h, if_pos (by omega)]

theorem Bus.read_wram (b : Bus) (addr : Nat)
    (h1 : 0xC000 ≤ addr) (h2 : addr ≤ 0xFDFF) :
    b.read addr = b.ram (wramIndex addr) := by
  unfold Bus.read wramIndex
  rw [if_neg (by omega), if_neg (by omega), if_neg (by omega)]
  by_cases h : addr ≤ 0xDFFF
  · rw [if_pos h, if_pos h]
  · rw [if_neg h, if_neg h, if_pos (by omega)]

/-- Two consecutive work/echo-RAM addresses never alias one backing cell. -/
theorem wramIndex_succ_ne (addr : Nat) (h1 : 0xC000 ≤ addr) (h2 : addr + 1 ≤ 0xFDFF) :
    wramIndex (addr + 1) ≠ wramIndex addr := by
  unfold wramIndex
  by_cases h : addr ≤ 0xDFFF
  · by_cases h' : addr + 1 ≤ 0xDFFF
    · rw [if_pos h, if_pos h']; omega
    · rw [if_pos h, if_neg h']; omega
  · rw [if_neg h, if_neg (by omega)]; omega

/-- Splitting a 16-bit word into `write_word`'s low and high bytes and
recombining them as `read_word` does is the identity. -/
theorem word_recombine (v : Nat) :
    (v >>> 8) <<< 8 ||| (v &&& 255) = v := by
  apply Nat.eq_of_testBit_eq
  intro i
  rw [Nat.testBit_or, Nat.testBit_and, Nat.testBit_shiftLeft, Nat.testBit_shiftRight]
  by_cases h : 8 ≤ i
  · have h255 : Nat.testBit 255 i = false := by
      rw [Nat.testBit_to_div_mod]
      have : (255 : Nat) / 2 ^ i = 0 := by
        apply Nat.div_eq_of_lt
        calc (255 : Nat) < 2 ^ 8 := by norm_num
        _ ≤ 2 ^ i := Nat.pow_le_pow_right (by norm_num) h
      simp [this]
    simp [h, h255, Nat.add_sub_cancel' h]
  · have h255 : Nat.testBit 255 i = true := by
      interval_cases i <;> decide
    simp [h, h255]

/-- Writing a 16-bit word into work/echo RAM and reading it back returns the
word, and the rest of the bus state (everything but `ram`) is untouched. -/
theorem Bus.write_word_wram (b : Bus) (addr v : Nat)
    (h1 : 0xC000 ≤ addr) (h2 : addr + 1 ≤ 0xFDFF) :
    b.write_word addr v =
      { b with ram := fun n =>
          if n = wramIndex (addr + 1) then v >>> 8
          else if n = wramIndex addr then v &&& 255
          else b.ram n } := by
  show (b.write addr (v &&& 0x00FF)).write (addr + 1) (v >>> 8) = _
  rw [Bus.write_wram b addr (v &&& 0x00FF) h1 (by omega)]
  rw [Bus.write_wram _ (addr + 1) (v >>> 8) (by omega) h2]

theorem Bus.read_word_write_word_wram (b : Bus) (addr v : Nat)
    (h1 : 0xC000 ≤ addr) (h2 : addr + 1 ≤ 0xFDFF) :
    (b.write_word addr v).read_word addr = v := by
  rw [Bus.write_word_wram b addr v h1 h2]
  unfold Bus.read_word
  rw [Bus.read_wram _ addr h1 (by omega), Bus.read_wram _ (addr + 1) (by omega) h2]
  have hne : wramIndex addr ≠ wramIndex (addr + 1) :=
    fun h => wramIndex_succ_ne addr h1 h2 h.symm
  dsimp only
  rw [if_pos rfl, if_neg hne, if_pos rfl]
  exact word_recombine v

/-- Claim C2 (amended): with IME set and vblank pending+enabled (stall-free
state; in-range SP whose stack slot lies in work/echo RAM; NOP byte at the
vector), the next `Cpu.tick` clears the vblank pending flag, clears IME,
decrements SP by 2, writes the pre-interrupt PC as a 16-bit word at the new
SP, and resumes at the vblank vector 0x0040 — the same tick then executes the
instruction found there, so with a NOP at the vector the post-tick PC is
0x0041, one past the vector. -/
theorem C2_thm_vblank_dispatch (s : Cpu)
    (hime : s.ime = true)
    (hie : Ie.v_blank s.bus.ie = true)
    (hirq : s.bus.ppu.int_v_blank = true)
    (hst : s.stalls = 0)
    (hlo : 0xC000 ≤ wsub16 s.sp 2) (hhi : wsub16 s.sp 2 + 1 ≤ 0xFDFF)
    (hfetch : s.bus.read 0x0040 = 0x00) :
    ∃ s', Cpu.tick s = .ok s'
      ∧ s'.ime = false
      ∧ s'.halt = false
      ∧ s'.bus.ppu.int_v_blank = false
      ∧ s'.sp = wsub16 s.sp 2
      ∧ s'.bus.read_word (wsub16 s.sp 2) = s.pc
      ∧ s'.pc = 0x0041 := by
  obtain ⟨sp2, hsp2⟩ : ∃ sp2, wsub16 s.sp 2 = sp2 := ⟨_, rfl⟩
  rw [hsp2] at hlo hhi ⊢
  have hmbc : s.bus.mbc.read 0x0040 = 0x00 := by
    unfold Bus.read at hfetch
    rw [if_pos (by omega)] at hfetch
    exact hfetch
  have hint : s.interrupt = some
      { s with
        sp := sp2
        bus := (s.bus.set_irq_v_blank false).write_word sp2 s.pc
        pc := 0x0040 } := by
    unfold Cpu.interrupt Bus.irq_v_blank
    rw [hie, hirq]
    simp only [Bool.and_self, if_pos rfl]
    rw [← hsp2]
    rfl
  obtain ⟨B1, hB1⟩ : ∃ B1, (s.bus.set_irq_v_blank false).write_word sp2 s.pc = B1 := ⟨_, rfl⟩
  rw [hB1] at hint
  have hread40 : B1.read 0x0040 = 0x00 := by
    rw [← hB1, Bus.write_word_wram _ _ _ hlo hhi]
    unfold Bus.read
    rw [if_pos (by omega)]
    exact hmbc
  have htick : Cpu.tick s = Cpu.do_mnemonic
      { s with sp := sp2, bus := B1, pc := wadd16 0x0040 1, ime := false, halt := false }
      (B1.read 0x0040) := by
    unfold Cpu.tick
    rw [hint, hime]
    simp only [ite_true, if_pos rfl]
    rw [hst]
    rfl
  rw [hread40] at htick
  have hdone : Cpu.tick s = .ok
      { s with sp := sp2, bus := B1, pc := wadd16 0x0040 1, ime := false, halt := false } := by
    rw [htick]
    rfl
  refine ⟨_, hdone, rfl, rfl, ?_, rfl, ?_, ?_⟩
  · show B1.ppu.int_v_blank = false
    rw [← hB1, Bus.write_word_wram _ _ _ hlo hhi]
    rfl
  · show B1.read_word sp2 = s.pc
    rw [← hB1]
    exact Bus.read_word_write_word_wram _ _ _ hlo hhi
  · show wadd16 0x0040 1 = 0x0041
    decide

/-- Witness for C2's theorem at `sampleCpuIrq` (PC = 0x1234, SP = 0xD000). -/
theorem C2_wit_vblank_dispatch :
    (sampleCpuIrq.ime = true ∧ Ie.v_blank sampleCpuIrq.bus.ie = true
      ∧ sampleCpuIrq.bus.ppu.int_v_blank = true ∧ sampleCpuIrq.stalls = 0
      ∧ 0xC000 ≤ wsub16 sampleCpuIrq.sp 2 ∧ wsub16 sampleCpuIrq.sp 2 + 1 ≤ 0xFDFF
      ∧ sampleCpuIrq.bus.read 0x0040 = 0x00)
    ∧ ∃ s', Cpu.tick sampleCpuIrq = .ok s'
      ∧ s'.ime = false
      ∧ s'.halt = false
      ∧ s'.bus.ppu.int_v_blank = false
      ∧ s'.sp = wsub16 sampleCpuIrq.sp 2
      ∧ s'.bus.read_word (wsub16 sampleCpuIrq.sp 2) = sampleCpuIrq.pc
      ∧ s'.pc = 0x0041 :=
  ⟨⟨rfl, by decide, rfl, rfl, by decide, by decide, rfl⟩,
    C2_thm_vblank_dispatch sampleCpuIrq rfl (by decide) rfl rfl
      (by decide) (by decide) rfl⟩

/-! ## C10: fresh Mbc1 has cartridge RAM enabled -/

/-- Claim C10: a freshly constructed Mbc1 (`enable_ram: true`, RAM bank 0)
stores a write to any address in 0xA000–0xBFFF and returns it on a read of
the same address — the access is not treated as disabled-RAM. -/
theorem C10_thm_fresh_mbc1_ram_roundtrip (rom : Rom) (addr val : Nat)
    (h1 : 0xA000 ≤ addr) (h2 : addr ≤ 0xBFFF) :
    ((Mbc1.new rom).write addr val).read addr = val := by
  simp only [Mbc1.new, Mbc.write, Mbc.write_ram_into_bank, Mbc.read,
    Mbc.read_ram_from_bank]
  rw [if_neg (by omega), if_neg (by omega), if_neg (by omega), if_neg (by omega)]
  simp only [Bool.not_true, Bool.false_eq_true, if_false]
  rw [if_neg (by omega), if_neg (by omega), if_pos (by omega)]
  simp

/-- Witness for C10 at address 0xA123, value 0x42. -/
theorem C10_wit_fresh_mbc1_ram_roundtrip :
    (0xA000 ≤ 0xA123 ∧ 0xA123 ≤ 0xBFFF)
      ∧ ((Mbc1.new sampleRom).write 0xA123 0x42).read 0xA123 = 0x42 :=
  ⟨⟨by decide, by decide⟩,
    C10_thm_fresh_mbc1_ram_roundtrip sampleRom 0xA123 0x42 (by decide) (by decide)⟩


/-! ## C9: PUSH rr then POP rr -/

/-- Claim C9, counterexample: PUSH/POP does not restore the pair for *every*
starting state — with SP = 0x0002 the pushed word lands in the MBC's
0x0000–0x1FFF control window (the write becomes a RAM-enable latch update and
is not stored), so POP BC reads ROM bytes (zero) instead of the pushed
0x1234.  SP itself is restored. -/
theorem C9_cex_push_pop_rom_window :
    ∃ s₁ s₂,
      Cpu.push_16_rr { sampleCpu with bc := 0x1234, sp := 0x0002 } 0 = .ok s₁
      ∧ s₁.pop_16_rr 0 = .ok s₂ ∧ s₂.bc = 0 ∧ s₂.bc ≠ 0x1234 ∧ s₂.sp = 0x0002 := by
  refine ⟨_, _, rfl, rfl, rfl, ?_, rfl⟩
  decide

/-- Claim C9 (amended): for every register-pair encoding (BC, DE, HL, AF) and
every CPU state (in-range SP) whose stack slot [SP-2, SP-1] lies in the
work/echo-RAM window 0xC000–0xFDFF, PUSH rr immediately followed by POP rr
restores the pair's exact 16-bit value and returns SP to its pre-PUSH
value. -/
theorem C9_thm_push_pop_roundtrip (s : Cpu) (index : Nat)
    (hidx : index < 4)
    (hsp : s.sp < 65536)
    (hlo : 0xC000 ≤ wsub16 s.sp 2) (hhi : wsub16 s.sp 2 + 1 ≤ 0xFDFF) :
    ∃ v s₁ s₂, s.r16 index true = .ok v
      ∧ s.push_16_rr index = .ok s₁
      ∧ s₁.pop_16_rr index = .ok s₂
      ∧ s₂.r16 index true = .ok v
      ∧ s₂.sp = s.sp := by
  obtain ⟨sp2, hsp2⟩ : ∃ sp2, wsub16 s.sp 2 = sp2 := ⟨_, rfl⟩
  rw [hsp2] at hlo hhi
  have hback : wadd16 sp2 2 = s.sp := by
    rw [← hsp2]
    unfold wadd16 wsub16
    omega
  interval_cases index
  · have hpush : s.push_16_rr 0 =
        .ok { s with sp := sp2, bus := s.bus.write_word sp2 s.bc } := by
      rw [← hsp2]
      rfl
    refine ⟨s.bc, _, _, rfl, hpush, rfl, ?_, hback⟩
    show Except.ok ((s.bus.write_word sp2 s.bc).read_word sp2) = _
    rw [Bus.read_word_write_word_wram _ _ _ hlo hhi]
  · have hpush : s.push_16_rr 1 =
        .ok { s with sp := sp2, bus := s.bus.write_word sp2 s.de } := by
      rw [← hsp2]
      rfl
    refine ⟨s.de, _, _, rfl, hpush, rfl, ?_, hback⟩
    show Except.ok ((s.bus.write_word sp2 s.de).read_word sp2) = _
    rw [Bus.read_word_write_word_wram _ _ _ hlo hhi]
  · have hpush : s.push_16_rr 2 =
        .ok { s with sp := sp2, bus := s.bus.write_word sp2 s.hl } := by
      rw [← hsp2]
      rfl
    refine ⟨s.hl, _, _, rfl, hpush, rfl, ?_, hback⟩
    show Except.ok ((s.bus.write_word sp2 s.hl).read_word sp2) = _
    rw [Bus.read_word_write_word_wram _ _ _ hlo hhi]
  · have hpush : s.push_16_rr 3 =
        .ok { s with sp := sp2, bus := s.bus.write_word sp2 s.af } := by
      rw [← hsp2]
      rfl
    refine ⟨s.af, _, _, rfl, hpush, rfl, ?_, hback⟩
    show Except.ok
        ((((s.bus.write_word sp2 s.af).read_word sp2) >>> 8) <<< 8
          ||| (((s.bus.write_word sp2 s.af).read_word sp2) &&& 255)) = _
    rw [Bus.read_word_write_word_wram _ _ _ hlo hhi, word_recombine]

/-- Witness for C9 at BC = 0x1234, SP = 0xD000. -/
theorem C9_wit_push_pop_roundtrip :
    ((0 : Nat) < 4 ∧ (0xC000 : Nat) ≤ wsub16 0xD000 2 ∧ wsub16 0xD000 2 + 1 ≤ 0xFDFF)
      ∧ ∃ v s₁ s₂,
        Cpu.r16 { sampleCpu with bc := 0x1234, sp := 0xD000 } 0 true = .ok v
        ∧ Cpu.push_16_rr { sampleCpu with bc := 0x1234, sp := 0xD000 } 0 = .ok s₁
        ∧ s₁.pop_16_rr 0 = .ok s₂
        ∧ s₂.r16 0 true = .ok v
        ∧ s₂.sp = 0xD000 :=
  ⟨⟨by decide, by decide, by decide⟩,
    C9_thm_push_pop_roundtrip { sampleCpu with bc := 0x1234, sp := 0xD000 } 0
      (by decide) (by decide) (by decide) (by decide)⟩

/-! ## C8: ADD A,r / SUB A,r round trip against the spec's flag formulas -/

/-- The implementation's bit-7 carry test agrees with the spec formula. -/
theorem carry_positive_spec (a b : Nat) : Cpu.carry_positive a b = specAddC a b := by
  unfold Cpu.carry_positive specAddC
  rw [decide_eq_decide]
  omega

/-- The implementation's mask-based half-carry test agrees with the spec
formula. -/
theorem half_carry_positive_spec (a b : Nat) :
    Cpu.half_carry_positive a b = specAddH a b := by
  unfold Cpu.half_carry_positive specAddH
  have e1 : a &&& 15 = a % 16 := Nat.and_pow_two_sub_one_eq_mod a 4
  have e2 : b &&& 15 = b % 16 := Nat.and_pow_two_sub_one_eq_mod b 4
  rw [e1, e2, decide_eq_decide]
  omega

/-- The implementation's borrow test agrees with the spec formula on byte
values. -/
theorem carry_negative_spec (a b : Nat) (ha : a < 256) (hb : b < 256) :
    Cpu.carry_negative a b = specSubC a b := by
  unfold Cpu.carry_negative specSubC
  rw [Nat.mod_eq_of_lt ha, Nat.mod_eq_of_lt hb]

/-- The implementation's mask-based half-borrow test agrees with the spec
formula. -/
theorem half_carry_negative_spec (a b : Nat) :
    Cpu.half_carry_negative a b = specSubH a b := by
  unfold Cpu.half_carry_negative specSubH
  have e1 : a &&& 15 = a % 16 := Nat.and_pow_two_sub_one_eq_mod a 4
  have e2 : b &&& 15 = b % 16 := Nat.and_pow_two_sub_one_eq_mod b 4
  rw [e1, e2]



/-- Claim C8: for every operand slot r in B,C,D,E,H,L,(HL) holding a byte b
and every in-range A = a, ADD A,r then SUB A,r restores A = a, and SUB A,r
then ADD A,r restores A = a (wrapping arithmetic); after every one of the
four steps Z, N, H and C equal the spec's bit-level reference formulas
(`specAdd*`/`specSub*`, modelled independently with `%`-arithmetic). -/
theorem C8_thm_add_sub_roundtrip (s : Cpu) (i b : Nat) (hi : i ≤ 6) (ha : s.a < 256)
    (hr : s.r8 i = .ok b) (hb : b < 256) :
    ∃ s₁ s₂ s₃ s₄,
      s.add_8_a_r i = .ok s₁ ∧ s₁.a = wadd8 s.a b
      ∧ F.z s₁.f = specAddZ s.a b ∧ F.n s₁.f = false
      ∧ F.h s₁.f = specAddH s.a b ∧ F.c s₁.f = specAddC s.a b
      ∧ s₁.sub_8_a_r i = .ok s₂ ∧ s₂.a = s.a
      ∧ F.z s₂.f = specSubZ s₁.a b ∧ F.n s₂.f = true
      ∧ F.h s₂.f = specSubH s₁.a b ∧ F.c s₂.f = specSubC s₁.a b
      ∧ s.sub_8_a_r i = .ok s₃ ∧ s₃.a = wsub8 s.a b
      ∧ F.z s₃.f = specSubZ s.a b ∧ F.n s₃.f = true
      ∧ F.h s₃.f = specSubH s.a b ∧ F.c s₃.f = specSubC s.a b
      ∧ s₃.add_8_a_r i = .ok s₄ ∧ s₄.a = s.a
      ∧ F.z s₄.f = specAddZ s₃.a b ∧ F.n s₄.f = false
      ∧ F.h s₄.f = specAddH s₃.a b ∧ F.c s₄.f = specAddC s₃.a b := by
  have hrag : ∀ a' f' : Nat, Cpu.r8 { s with a := a', f := f' } i = s.r8 i := by
    intro a' f'
    interval_cases i <;> rfl
  have hwadd : wadd8 s.a b < 256 := Nat.mod_lt _ (by norm_num)
  have hwsub : wsub8 s.a b < 256 := Nat.mod_lt _ (by norm_num)
  have h1 : s.add_8_a_r i = .ok { s with
      a := wadd8 s.a b
      f := F.set_c (Cpu.carry_positive s.a b) (F.set_h (Cpu.half_carry_positive s.a b)
        (F.set_n false (F.set_z (decide (wadd8 s.a b = 0)) s.f))) } := by
    unfold Cpu.add_8_a_r
    rw [hr]
    rfl
  have h2 : Cpu.sub_8_a_r { s with
      a := wadd8 s.a b
      f := F.set_c (Cpu.carry_positive s.a b) (F.set_h (Cpu.half_carry_positive s.a b)
        (F.set_n false (F.set_z (decide (wadd8 s.a b = 0)) s.f))) } i = .ok { s with
      a := wsub8 (wadd8 s.a b) b
      f := F.set_c (Cpu.carry_negative (wadd8 s.a b) b)
        (F.set_h (Cpu.half_carry_negative (wadd8 s.a b) b)
          (F.set_n true (F.set_z (decide (wsub8 (wadd8 s.a b) b = 0))
            (F.set_c (Cpu.carry_positive s.a b) (F.set_h (Cpu.half_carry_positive s.a b)
              (F.set_n false (F.set_z (decide (wadd8 s.a b = 0)) s.f))))))) } := by
    unfold Cpu.sub_8_a_r
    rw [hrag, hr]
    rfl
  have h3 : s.sub_8_a_r i = .ok { s with
      a := wsub8 s.a b
      f := F.set_c (Cpu.carry_negative s.a b) (F.set_h (Cpu.half_carry_negative s.a b)
        (F.set_n true (F.set_z (decide (wsub8 s.a b = 0)) s.f))) } := by
    unfold Cpu.sub_8_a_r
    rw [hr]
    rfl
  have h4 : Cpu.add_8_a_r { s with
      a := wsub8 s.a b
      f := F.set_c (Cpu.carry_negative s.a b) (F.set_h (Cpu.half_carry_negative s.a b)
        (F.set_n true (F.set_z (decide (wsub8 s.a b = 0)) s.f))) } i = .ok { s with
      a := wadd8 (wsub8 s.a b) b
      f := F.set_c (Cpu.carry_positive (wsub8 s.a b) b)
        (F.set_h (Cpu.half_carry_positive (wsub8 s.a b) b)
          (F.set_n false (F.set_z (decide (wadd8 (wsub8 s.a b) b = 0))
            (F.set_c (Cpu.carry_negative s.a b) (F.set_h (Cpu.half_carry_negative s.a b)
              (F.set_n true (F.set_z (decide (wsub8 s.a b = 0)) s.f))))))) } := by
    unfold Cpu.add_8_a_r
    rw [hrag, hr]
    rfl
  refine ⟨_, _, _, _, h1, rfl, ?_, ?_, ?_, ?_, h2, ?_, ?_, ?_, ?_, ?_,
    h3, rfl, ?_, ?_, ?_, ?_, h4, ?_, ?_, ?_, ?_, ?_⟩
  · simp only [F.z_set_c, F.z_set_h, F.z_set_n, F.z_set_z, F.n_set_c, F.n_set_h,
      F.n_set_n, F.n_set_z, F.h_set_c, F.h_set_h, F.h_set_n, F.h_set_z, F.c_set_c,
      F.c_set_h, F.c_set_n, F.c_set_z]
    try rfl
  · simp only [F.z_set_c, F.z_set_h, F.z_set_n, F.z_set_z, F.n_set_c, F.n_set_h,
      F.n_set_n, F.n_set_z, F.h_set_c, F.h_set_h, F.h_set_n, F.h_set_z, F.c_set_c,
      F.c_set_h, F.c_set_n, F.c_set_z]
    try rfl
  · simp [half_carry_positive_spec]
  · simp [carry_positive_spec]
  · show wsub8 (wadd8 s.a b) b = s.a
    unfold wadd8 wsub8
    omega
  · simp only [F.z_set_c, F.z_set_h, F.z_set_n, F.z_set_z, F.n_set_c, F.n_set_h,
      F.n_set_n, F.n_set_z, F.h_set_c, F.h_set_h, F.h_set_n, F.h_set_z, F.c_set_c,
      F.c_set_h, F.c_set_n, F.c_set_z]
    try rfl
  · simp only [F.z_set_c, F.z_set_h, F.z_set_n, F.z_set_z, F.n_set_c, F.n_set_h,
      F.n_set_n, F.n_set_z, F.h_set_c, F.h_set_h, F.h_set_n, F.h_set_z, F.c_set_c,
      F.c_set_h, F.c_set_n, F.c_set_z]
    try rfl
  · simp [half_carry_negative_spec]
  · simp [carry_negative_spec _ _ hwadd hb]
  · simp only [F.z_set_c, F.z_set_h, F.z_set_n, F.z_set_z, F.n_set_c, F.n_set_h,
      F.n_set_n, F.n_set_z, F.h_set_c, F.h_set_h, F.h_set_n, F.h_set_z, F.c_set_c,
      F.c_set_h, F.c_set_n, F.c_set_z]
    try rfl
  · simp only [F.z_set_c, F.z_set_h, F.z_set_n, F.z_set_z, F.n_set_c, F.n_set_h,
      F.n_set_n, F.n_set_z, F.h_set_c, F.h_set_h, F.h_set_n, F.h_set_z, F.c_set_c,
      F.c_set_h, F.c_set_n, F.c_set_z]
    try rfl
  · simp [half_carry_negative_spec]
  · simp [carry_negative_spec _ _ ha hb]
  · show wadd8 (wsub8 s.a b) b = s.a
    unfold wadd8 wsub8
    omega
  · simp only [F.z_set_c, F.z_set_h, F.z_set_n, F.z_set_z, F.n_set_c, F.n_set_h,
      F.n_set_n, F.n_set_z, F.h_set_c, F.h_set_h, F.h_set_n, F.h_set_z, F.c_set_c,
      F.c_set_h, F.c_set_n, F.c_set_z]
    try rfl
  · simp only [F.z_set_c, F.z_set_h, F.z_set_n, F.z_set_z, F.n_set_c, F.n_set_h,
      F.n_set_n, F.n_set_z, F.h_set_c, F.h_set_h, F.h_set_n, F.h_set_z, F.c_set_c,
      F.c_set_h, F.c_set_n, F.c_set_z]
    try rfl
  · simp [half_carry_positive_spec]
  · simp [carry_positive_spec]


/-- Witness for C8 at A = 0x05, operand slot B holding 0x03. -/
theorem C8_wit_add_sub_roundtrip :
    ((0 : Nat) ≤ 6 ∧ sampleCpuCp.a < 256 ∧ Cpu.r8 sampleCpuCp 0 = .ok 3 ∧ (3 : Nat) < 256)
    ∧ ∃ s₁ s₂ s₃ s₄,
      sampleCpuCp.add_8_a_r 0 = .ok s₁ ∧ s₁.a = wadd8 sampleCpuCp.a 3
      ∧ F.z s₁.f = specAddZ sampleCpuCp.a 3 ∧ F.n s₁.f = false
      ∧ F.h s₁.f = specAddH sampleCpuCp.a 3 ∧ F.c s₁.f = specAddC sampleCpuCp.a 3
      ∧ s₁.sub_8_a_r 0 = .ok s₂ ∧ s₂.a = sampleCpuCp.a
      ∧ F.z s₂.f = specSubZ s₁.a 3 ∧ F.n s₂.f = true
      ∧ F.h s₂.f = specSubH s₁.a 3 ∧ F.c s₂.f = specSubC s₁.a 3
      ∧ sampleCpuCp.sub_8_a_r 0 = .ok s₃ ∧ s₃.a = wsub8 sampleCpuCp.a 3
      ∧ F.z s₃.f = specSubZ sampleCpuCp.a 3 ∧ F.n s₃.f = true
      ∧ F.h s₃.f = specSubH sampleCpuCp.a 3 ∧ F.c s₃.f = specSubC sampleCpuCp.a 3
      ∧ s₃.add_8_a_r 0 = .ok s₄ ∧ s₄.a = sampleCpuCp.a
      ∧ F.z s₄.f = specAddZ s₃.a 3 ∧ F.n s₄.f = false
      ∧ F.h s₄.f = specAddH s₃.a 3 ∧ F.c s₄.f = specAddC s₃.a 3 :=
  ⟨⟨by decide, by decide, rfl, by decide⟩,
    C8_thm_add_sub_roundtrip sampleCpuCp 0 3 (by decide) (by decide) rfl (by decide)⟩

/-! ## C4: timer falling-edge / overflow behaviour -/

/-- Testing counter bit 9 by masking agrees with div/mod arithmetic. -/
theorem and512_pos (x : Nat) : (0 < x &&& 512) ↔ x / 512 % 2 = 1 := by
  have h := Nat.and_two_pow x 9
  rw [Nat.testBit_to_div_mod] at h
  norm_num at h
  by_cases hd : x / 512 % 2 = 1
  · simp [hd] at h
    simp [h, hd]
  · simp [hd] at h
    simp [h, hd]

/-- One `Timer::tick` of an enabled bit-9 timer: the counter advances by one
(mod 2^16), `prev` latches the new counter's bit 9, and the configuration
and TMA are unchanged. -/
theorem Timer.tick_step (t : Timer) (he : t.enable = true) (hc : t.clock = .Clock4096) :
    (Timer.tick t).counter = (t.counter + 1) % 65536
    ∧ (Timer.tick t).prev = decide (0 < ((t.counter + 1) % 65536) &&& 512)
    ∧ (Timer.tick t).enable = true
    ∧ (Timer.tick t).clock = Clock.Clock4096
    ∧ (Timer.tick t).tma = t.tma := by
  unfold Timer.tick Timer.sync wadd16
  rw [he, hc]
  simp only [if_pos rfl, ite_true]
  split
  · split
    · exact ⟨rfl, by simp, rfl, rfl, rfl⟩
    · exact ⟨rfl, by simp, rfl, rfl, rfl⟩
  · exact ⟨rfl, by simp, rfl, rfl, rfl⟩


/-- Iterating `Timer::tick` from a synced state (`prev` = counter bit 9):
closed forms for the counter and the `prev` latch. -/
theorem Timer.iterate_inv (t : Timer) (he : t.enable = true) (hc : t.clock = .Clock4096)
    (hcnt : t.counter < 65536)
    (hprev : t.prev = decide (0 < t.counter &&& 512)) :
    ∀ n : Nat, (Timer.tick^[n] t).counter = (t.counter + n) % 65536
      ∧ (Timer.tick^[n] t).prev = decide (0 < ((t.counter + n) % 65536) &&& 512)
      ∧ (Timer.tick^[n] t).enable = true
      ∧ (Timer.tick^[n] t).clock = Clock.Clock4096
      ∧ (Timer.tick^[n] t).tma = t.tma := by
  intro n
  induction n with
  | zero =>
    refine ⟨?_, ?_, he, hc, rfl⟩
    · simpa using (Nat.mod_eq_of_lt hcnt).symm
    · rw [Function.iterate_zero_apply, hprev]
      congr 1
      rw [Nat.add_zero, Nat.mod_eq_of_lt hcnt]
  | succ n ih =>
    obtain ⟨ihc, ihp, ihe, ihk, iht⟩ := ih
    rw [Function.iterate_succ_apply']
    obtain ⟨hc1, hp1, he1, hk1, ht1⟩ := Timer.tick_step _ ihe ihk
    have harith : ((t.counter + n) % 65536 + 1) % 65536 = (t.counter + (n + 1)) % 65536 := by
      omega
    refine ⟨?_, ?_, he1, hk1, ?_⟩
    · rw [hc1, ihc, harith]
    · rw [hp1, ihc, harith]
    · rw [ht1, iht]


/-- A tick whose falling edge lands on a counter multiple of 4 and wraps
TIMA past 0xFF reloads TMA and raises the interrupt. -/
theorem Timer.tick_overflow (u : Timer) (he : u.enable = true) (hc : u.clock = .Clock4096)
    (hp : u.prev = true) (ht : u.tima = 0xFF)
    (hcur : ((u.counter + 1) % 65536) &&& 512 = 0)
    (hmod : ((u.counter + 1) % 65536) % 4 = 0) :
    (Timer.tick u).tima = u.tma ∧ (Timer.tick u).int = true := by
  unfold Timer.tick Timer.sync wadd16
  rw [he, hc, hp, ht]
  simp only [if_pos rfl, ite_true]
  rw [show (1 <<< 9 : Nat) = 512 from rfl, hcur, hmod]
  norm_num [wadd8]


/-- Claim C4 (amended): for an enabled timer with clock-select bit 9 whose
`prev` latch is consistent with the (in-range) counter, over any window of
1024 ticks the selected bit falls exactly once — so TIMA increments exactly
once per 1024 counter ticks — and at every such falling edge, if TIMA was
0xFF, the very next state holds TIMA = TMA with the interrupt flag set
(such edges always land on counter % 4 == 0, satisfying `Timer::sync`'s
guard).  For arbitrary states the reload is conditional on that guard, as
the counterexample shows. -/
theorem C4_thm_timer_1024_and_overflow (t : Timer)
    (he : t.enable = true) (hc : t.clock = .Clock4096)
    (hcnt : t.counter < 65536)
    (hprev : t.prev = decide (0 < t.counter &&& 512)) :
    ((Finset.range 1024).filter (fun k =>
        (Timer.tick^[k] t).prev = true ∧ (Timer.tick^[k + 1] t).prev = false)).card = 1
    ∧ ∀ k, k < 1024 →
        (Timer.tick^[k] t).prev = true → (Timer.tick^[k + 1] t).prev = false →
        (Timer.tick^[k] t).tima = 0xFF →
        (Timer.tick^[k + 1] t).tima = t.tma ∧ (Timer.tick^[k + 1] t).int = true := by
  have inv := Timer.iterate_inv t he hc hcnt hprev
  have hedge : ∀ k : Nat,
      ((Timer.tick^[k] t).prev = true ∧ (Timer.tick^[k + 1] t).prev = false)
        ↔ (t.counter + k) % 1024 = 1023 := by
    intro k
    obtain ⟨-, hpk, -, -, -⟩ := inv k
    obtain ⟨-, hpk1, -, -, -⟩ := inv (k + 1)
    rw [hpk, hpk1]
    simp only [decide_eq_true_eq, decide_eq_false_iff_not]
    rw [and512_pos, and512_pos]
    omega
  constructor
  · have hset : (Finset.range 1024).filter (fun k =>
        (Timer.tick^[k] t).prev = true ∧ (Timer.tick^[k + 1] t).prev = false)
        = {(1023 + 1024 - t.counter % 1024) % 1024} := by
      ext k
      simp only [Finset.mem_filter, Finset.mem_range, Finset.mem_singleton, hedge k]
      omega
    rw [hset]
    rfl
  · intro k hk hpk hpk1 htima
    have hm : (t.counter + k) % 1024 = 1023 := (hedge k).mp ⟨hpk, hpk1⟩
    obtain ⟨hck, -, hek, hkk, htk⟩ := inv k
    rw [Function.iterate_succ_apply']
    have hcur : (((Timer.tick^[k] t).counter + 1) % 65536) &&& 512 = 0 := by
      have hnot : ¬ (0 < (((Timer.tick^[k] t).counter + 1) % 65536) &&& 512) := by
        rw [and512_pos, hck]
        omega
      omega
    have hmod : (((Timer.tick^[k] t).counter + 1) % 65536) % 4 = 0 := by
      rw [hck]
      omega
    obtain ⟨h1, h2⟩ := Timer.tick_overflow _ hek hkk hpk htima hcur hmod
    exact ⟨h1.trans htk, h2⟩


/-- Witness for C4 at the freshly enabled timer `sampleTimerRun`. -/
theorem C4_wit_timer_1024_and_overflow :
    (sampleTimerRun.enable = true ∧ sampleTimerRun.clock = Clock.Clock4096
      ∧ sampleTimerRun.counter < 65536
      ∧ sampleTimerRun.prev = decide (0 < sampleTimerRun.counter &&& 512))
    ∧ ((Finset.range 1024).filter (fun k =>
        (Timer.tick^[k] sampleTimerRun).prev = true
          ∧ (Timer.tick^[k + 1] sampleTimerRun).prev = false)).card = 1
    ∧ ∀ k, k < 1024 →
        (Timer.tick^[k] sampleTimerRun).prev = true →
        (Timer.tick^[k + 1] sampleTimerRun).prev = false →
        (Timer.tick^[k] sampleTimerRun).tima = 0xFF →
        (Timer.tick^[k + 1] sampleTimerRun).tima = sampleTimerRun.tma
          ∧ (Timer.tick^[k + 1] sampleTimerRun).int = true :=
  ⟨⟨rfl, rfl, by decide, by decide⟩,
    C4_thm_timer_1024_and_overflow sampleTimerRun rfl rfl (by decide) (by decide)⟩


theorem Ppu.scan_oam_counters (p : Ppu) (i : Nat) :
    (p.scan_oam i).cycles = p.cycles ∧ (p.scan_oam i).lines = p.lines
      ∧ (p.scan_oam i).int_v_blank = p.int_v_blank := by
  unfold Ppu.scan_oam
  split <;> dsimp only <;> split <;> exact ⟨rfl, rfl, rfl⟩

theorem Ppu.draw_bg_counters (p : Ppu) :
    (p.draw_bg).cycles = p.cycles ∧ (p.draw_bg).lines = p.lines
      ∧ (p.draw_bg).int_v_blank = p.int_v_blank := by
  unfold Ppu.draw_bg
  split <;> exact ⟨rfl, rfl, rfl⟩

theorem Ppu.draw_window_counters (p : Ppu) :
    (p.draw_window).cycles = p.cycles ∧ (p.draw_window).lines = p.lines
      ∧ (p.draw_window).int_v_blank = p.int_v_blank := by
  unfold Ppu.draw_window
  split <;> exact ⟨rfl, rfl, rfl⟩

theorem Ppu.draw_sprite_counters (p : Ppu) :
    (p.draw_sprite).cycles = p.cycles ∧ (p.draw_sprite).lines = p.lines
      ∧ (p.draw_sprite).int_v_blank = p.int_v_blank := ⟨rfl, rfl, rfl⟩

theorem Ppu.put_pixels_counters (p : Ppu) (x : Nat) :
    (p.put_pixels x).cycles = p.cycles ∧ (p.put_pixels x).lines = p.lines
      ∧ (p.put_pixels x).int_v_blank = p.int_v_blank := ⟨rfl, rfl, rfl⟩


theorem Ppu.draw_bg_cycles (p : Ppu) : (p.draw_bg).cycles = p.cycles :=
  (Ppu.draw_bg_counters p).1

theorem Ppu.draw_bg_lines (p : Ppu) : (p.draw_bg).lines = p.lines :=
  (Ppu.draw_bg_counters p).2.1

theorem Ppu.draw_bg_int (p : Ppu) : (p.draw_bg).int_v_blank = p.int_v_blank :=
  (Ppu.draw_bg_counters p).2.2

theorem Ppu.draw_window_cycles (p : Ppu) : (p.draw_window).cycles = p.cycles :=
  (Ppu.draw_window_counters p).1

theorem Ppu.draw_window_lines (p : Ppu) : (p.draw_window).lines = p.lines :=
  (Ppu.draw_window_counters p).2.1

theorem Ppu.draw_window_int (p : Ppu) : (p.draw_window).int_v_blank = p.int_v_blank :=
  (Ppu.draw_window_counters p).2.2

theorem Ppu.draw_sprite_cycles (p : Ppu) : (p.draw_sprite).cycles = p.cycles := rfl

theorem Ppu.draw_sprite_lines (p : Ppu) : (p.draw_sprite).lines = p.lines := rfl

theorem Ppu.draw_sprite_int (p : Ppu) : (p.draw_sprite).int_v_blank = p.int_v_blank := rfl

theorem Ppu.put_pixels_cycles (p : Ppu) (x : Nat) : (p.put_pixels x).cycles = p.cycles := rfl

theorem Ppu.put_pixels_lines (p : Ppu) (x : Nat) : (p.put_pixels x).lines = p.lines := rfl

theorem Ppu.put_pixels_int (p : Ppu) (x : Nat) :
    (p.put_pixels x).int_v_blank = p.int_v_blank := rfl

theorem Ppu.scan_oam_cycles (p : Ppu) (i : Nat) : (p.scan_oam i).cycles = p.cycles :=
  (Ppu.scan_oam_counters p i).1

theorem Ppu.scan_oam_lines (p : Ppu) (i : Nat) : (p.scan_oam i).lines = p.lines :=
  (Ppu.scan_oam_counters p i).2.1

theorem Ppu.scan_oam_int (p : Ppu) (i : Nat) :
    (p.scan_oam i).int_v_blank = p.int_v_blank :=
  (Ppu.scan_oam_counters p i).2.2

theorem Ppu.tick_render_counters (p : Ppu) :
    (p.tick_render).cycles = p.cycles ∧ (p.tick_render).lines = p.lines
      ∧ (p.tick_render).int_v_blank = p.int_v_blank := by
  unfold Ppu.tick_render
  cases p.mode <;> dsimp only <;> refine ⟨?_, ?_, ?_⟩ <;>
    simp only [apply_ite Ppu.cycles, apply_ite Ppu.lines, apply_ite Ppu.int_v_blank,
      Ppu.draw_bg_cycles, Ppu.draw_bg_lines, Ppu.draw_bg_int,
      Ppu.draw_window_cycles, Ppu.draw_window_lines, Ppu.draw_window_int,
      Ppu.draw_sprite_cycles, Ppu.draw_sprite_lines, Ppu.draw_sprite_int,
      Ppu.put_pixels_cycles, Ppu.put_pixels_lines, Ppu.put_pixels_int,
      Ppu.scan_oam_cycles, Ppu.scan_oam_lines, Ppu.scan_oam_int, ite_self]


theorem Ppu.tick_render_cycles (p : Ppu) : (p.tick_render).cycles = p.cycles :=
  (Ppu.tick_render_counters p).1

theorem Ppu.tick_render_lines (p : Ppu) : (p.tick_render).lines = p.lines :=
  (Ppu.tick_render_counters p).2.1

theorem Ppu.tick_render_int (p : Ppu) :
    (p.tick_render).int_v_blank = p.int_v_blank :=
  (Ppu.tick_render_counters p).2.2

theorem Ppu.tick_counters (p : Ppu) :
    (Ppu.tick p).cycles = (if p.cycles + 1 ≥ 456 then 0 else p.cycles + 1)
    ∧ (Ppu.tick p).lines =
        (if (if p.cycles + 1 ≥ 456 then p.lines + 1 else p.lines) ≥ 154 then 0
         else if p.cycles + 1 ≥ 456 then p.lines + 1 else p.lines)
    ∧ (Ppu.tick p).int_v_blank =
        (if (if (if p.cycles + 1 ≥ 456 then p.lines + 1 else p.lines) ≥ 154 then 0
             else if p.cycles + 1 ≥ 456 then p.lines + 1 else p.lines) = 144
         then true else p.int_v_blank) := by
  unfold Ppu.tick Ppu.tick_enter_vblank Ppu.tick_visible Ppu.tick_reset_y
    Ppu.tick_reset_x Ppu.tick_wrap_lines Ppu.tick_inc
  dsimp only
  refine ⟨?_, ?_, ?_⟩ <;>
    simp only [Ppu.tick_render_cycles, Ppu.tick_render_lines, Ppu.tick_render_int,
      apply_ite Ppu.cycles, apply_ite Ppu.lines, apply_ite Ppu.int_v_blank, ite_self]


theorem Ppu.iterate_counters : ∀ n : Nat,
    (Ppu.tick^[n] Ppu.new).cycles = n % 456
    ∧ (Ppu.tick^[n] Ppu.new).lines = (n / 456) % 154
    ∧ (Ppu.tick^[n] Ppu.new).int_v_blank = decide (65664 ≤ n) := by
  intro n
  induction n with
  | zero => exact ⟨rfl, rfl, rfl⟩
  | succ n ih =>
    obtain ⟨hc, hl, hi⟩ := ih
    rw [Function.iterate_succ_apply']
    obtain ⟨hc', hl', hi'⟩ := Ppu.tick_counters (Ppu.tick^[n] Ppu.new)
    simp only [hc, hl, hi] at hc' hl' hi'
    rw [hc', hl', hi']
    refine ⟨?_, ?_, ?_⟩
    · split_ifs <;> omega
    · split_ifs <;> omega
    · split_ifs <;>
        first
        | (rw [eq_comm, decide_eq_true_eq]; omega)
        | (rw [decide_eq_decide]; omega)

/-- C5: starting from the freshly constructed PPU, after exactly 456*154 = 70224
ticks the (line, dot) pair is back at (0, 0); the vblank-pending flag over the
run equals `decide (65664 <= n)` after n ticks, so it makes exactly one
false-to-true transition, at tick 65664 = 456*144, which is the tick that
enters line 144 (lines goes 143 -> 144 there). -/
theorem C5_thm_frame_and_vblank :
    (Ppu.tick^[70224] Ppu.new).cycles = 0
    ∧ (Ppu.tick^[70224] Ppu.new).lines = 0
    ∧ (∀ n : Nat, (Ppu.tick^[n] Ppu.new).int_v_blank = decide (65664 ≤ n))
    ∧ (Ppu.tick^[65663] Ppu.new).lines = 143
    ∧ (Ppu.tick^[65664] Ppu.new).lines = 144 := by
  refine ⟨?_, ?_, fun n => (Ppu.iterate_counters n).2.2, ?_, ?_⟩
  · rw [(Ppu.iterate_counters 70224).1]
  · rw [(Ppu.iterate_counters 70224).2.1]
  · rw [(Ppu.iterate_counters 65663).2.1]
  · rw [(Ppu.iterate_counters 65664).2.1]

end GB
